import Mathlib

/-!
# Cargo tracking: delivery derivation

A shallow embedding of the cargo shipping repository.  The use-case packages
(`tracking`, `inmem`, ...) are embedded from their Go sources.  The root
package `goddd` (cargo, delivery, itinerary, handling event) is used by those
packages but its files are not part of the source tree at hand, so its
operations are modelled from the specification; each such definition says so.
-/

namespace Goddd

/-! ## Value types -/

/-- Go `type UNLocode string`: the United Nations location code. -/
abbrev UNLocode := String

/-- Go `type VoyageNumber string`; the empty string is "no voyage". -/
abbrev VoyageNumber := String

/-- Go `type TrackingID string`. -/
abbrev TrackingID := String

/-- An instant (`time.Time`), counted from the zero time: `0` is `time.Time{}`,
for which `IsZero` holds. -/
abbrev Time := Int

/-- Handling event types; `NotHandled` is the zero value. -/
inductive HandlingEventType where
  | NotHandled
  | Receive
  | Load
  | Unload
  | Customs
  | Claim
deriving DecidableEq, Repr

/-- A handling activity: an observed event's effect or a predicted next step. -/
structure HandlingActivity where
  type : HandlingEventType
  location : UNLocode
  voyageNumber : VoyageNumber
deriving DecidableEq, Repr

/-- The zero value `HandlingActivity{}`: no activity expected or known. -/
def HandlingActivity.zero : HandlingActivity :=
  { type := HandlingEventType.NotHandled, location := "", voyageNumber := "" }

/-- A handling event: tracking id, activity, registration and completion time. -/
structure HandlingEvent where
  trackingID : TrackingID
  activity : HandlingActivity
  registrationTime : Time
  completionTime : Time
deriving DecidableEq, Repr

/-- One leg of an itinerary. -/
structure Leg where
  voyageNumber : VoyageNumber
  loadLocation : UNLocode
  unloadLocation : UNLocode
  loadTime : Time
  unloadTime : Time
deriving DecidableEq, Repr

/-- An itinerary: the ordered legs; no legs means "not routed". -/
structure Itinerary where
  legs : List Leg
deriving DecidableEq, Repr

/-- A route specification: origin, destination and arrival deadline (the zero
time when no deadline is set). -/
structure RouteSpecification where
  origin : UNLocode
  destination : UNLocode
  arrivalDeadline : Time
deriving DecidableEq, Repr

/-- Routing status of a delivery. -/
inductive RoutingStatus where
  | NotRouted
  | Misrouted
  | Routed
deriving DecidableEq, Repr

/-- Transport status of a delivery.  `tracking.assembleStatusText` has a
`default` branch besides the four named statuses; `Unknown` stands for it. -/
inductive TransportStatus where
  | NotReceived
  | InPort
  | OnboardCarrier
  | Claimed
  | Unknown
deriving DecidableEq, Repr

/-- The derived delivery snapshot.  `lastEvent` is the event the snapshot was
derived from (`none` for the empty history) and `recorded` holds the events of
the history recorded before it: `AssignToRoute` and `SpecifyNewRoute` take no
history and re-derive from these. -/
structure Delivery where
  lastEvent : Option HandlingEvent
  recorded : List HandlingEvent
  itinerary : Itinerary
  routingStatus : RoutingStatus
  transportStatus : TransportStatus
  nextExpectedActivity : HandlingActivity
  lastKnownLocation : UNLocode
  currentVoyage : VoyageNumber
  eta : Time
  isMisdirected : Bool
  isUnloadedAtDestination : Bool
  calculatedAt : Time
deriving DecidableEq, Repr

/-- The cargo aggregate. -/
structure Cargo where
  trackingID : TrackingID
  origin : UNLocode
  routeSpecification : RouteSpecification
  itinerary : Itinerary
  delivery : Delivery
deriving DecidableEq, Repr

/-! ## Itinerary (specification 4.1 and 4.4) -/

/-- Modelled from the spec: `Itinerary.IsEmpty` (itinerary.go is not in the
source tree): "zero-length = empty". -/
def Itinerary.isEmpty (i : Itinerary) : Bool :=
  i.legs.isEmpty

/-- Modelled from the spec: the lookup helper `legsMatchingLoad(voyage,
location)` of 4.1 (itinerary.go is not in the source tree): the legs with that
voyage number and that load location, in itinerary order. -/
def Itinerary.legsMatchingLoad (i : Itinerary) (voyage : VoyageNumber)
    (location : UNLocode) : List Leg :=
  i.legs.filter (fun l => l.voyageNumber == voyage && l.loadLocation == location)

/-- Modelled from the spec: the lookup helper `legsMatchingUnload(voyage,
location)` of 4.1 (itinerary.go is not in the source tree). -/
def Itinerary.legsMatchingUnload (i : Itinerary) (voyage : VoyageNumber)
    (location : UNLocode) : List Leg :=
  i.legs.filter (fun l => l.voyageNumber == voyage && l.unloadLocation == location)

/-- Modelled from the spec: `Itinerary.IsExpected` (itinerary.go is not in the
source tree), 4.1: "an empty itinerary makes every event unexpected"; Receive
is expected only at the first leg's load location, Claim only at the last
leg's unload location, Load/Unload only if some leg has matching voyage number
and matching load/unload location, Customs always.  `NotHandled` is predicted
by no rule of the plan, so it is not expected. -/
def Itinerary.isExpected (i : Itinerary) (event : HandlingEvent) : Bool :=
  if i.isEmpty then false
  else
    match event.activity.type with
    | HandlingEventType.Receive =>
        (i.legs.head?.map (fun l => l.loadLocation == event.activity.location)).getD false
    | HandlingEventType.Load =>
        !(i.legsMatchingLoad event.activity.voyageNumber event.activity.location).isEmpty
    | HandlingEventType.Unload =>
        !(i.legsMatchingUnload event.activity.voyageNumber event.activity.location).isEmpty
    | HandlingEventType.Claim =>
        (i.legs.getLast?.map (fun l => l.unloadLocation == event.activity.location)).getD false
    | HandlingEventType.Customs => true
    | HandlingEventType.NotHandled => false

/-- Modelled from the spec: `itinerary.satisfies(routeSpecification)` of 4.4
(the route specification's satisfaction check is not in the source tree):
itinerary non-empty, first leg's load location = origin, last leg's unload
location = destination, and no deadline set or last leg's unload time at most
the deadline. -/
def Itinerary.satisfies (i : Itinerary) (rs : RouteSpecification) : Bool :=
  match i.legs.head?, i.legs.getLast? with
  | some first, some last =>
      first.loadLocation == rs.origin && last.unloadLocation == rs.destination &&
        (rs.arrivalDeadline == 0 || decide (last.unloadTime ≤ rs.arrivalDeadline))
  | _, _ => false

/-! ## Handling history -/

/-- The handling history of one cargo: Go `HandlingHistory{HandlingEvents}`,
in the order in which the repository returned the events. -/
structure HandlingHistory where
  handlingEvents : List HandlingEvent
deriving DecidableEq, Repr

/-- Order of two events by completion time. -/
abbrev completedNoLaterThan (a b : HandlingEvent) : Prop :=
  a.completionTime ≤ b.completionTime

/-- Modelled from the spec: the ordering step of derivation (handling.go is not
in the source tree): "stable sort by completion time, then by registration
order".  Insertion sort with `≤` keeps events of equal completion time in
history order. -/
def HandlingHistory.sortedByCompletionTime (h : HandlingHistory) : List HandlingEvent :=
  h.handlingEvents.insertionSort completedNoLaterThan

/-- Modelled from the spec: selection of the "last event" (handling.go is not
in the source tree), 4.3 step 2: the last event by completion time, ties
broken by latest in history order; `none` for the empty history. -/
def HandlingHistory.mostRecentlyCompletedEvent (h : HandlingHistory) : Option HandlingEvent :=
  h.sortedByCompletionTime.getLast?

/-- Modelled from the spec: the events "recorded" before the last event
(handling.go is not in the source tree): the history in the order of 4.3 step
2, without its last event. -/
def HandlingHistory.recordedBeforeLastEvent (h : HandlingHistory) : List HandlingEvent :=
  h.sortedByCompletionTime.dropLast

/-! ## Delivery derivation (specification 4.3) -/

/-- Modelled from the spec: routing status (delivery.go is not in the source
tree), 4.3 step 9: NotRouted for the empty itinerary, Routed when the
itinerary satisfies the route specification, Misrouted otherwise. -/
def calculateRoutingStatus (itinerary : Itinerary) (rs : RouteSpecification) : RoutingStatus :=
  if itinerary.isEmpty then RoutingStatus.NotRouted
  else if itinerary.satisfies rs then RoutingStatus.Routed
  else RoutingStatus.Misrouted

/-- Modelled from the spec: transport status (delivery.go is not in the source
tree), 4.3 steps 1 and 3: NotReceived for the empty history; otherwise from the
last event's type, Receive, Unload and Customs to InPort, Load to
OnboardCarrier, Claim to Claimed.  NotReceived "is impossible once history
non-empty", and the spec maps `NotHandled` (which "cannot appear in a real
history") to none of the named statuses, so it falls to `Unknown`. -/
def calculateTransportStatus (lastEvent : Option HandlingEvent) : TransportStatus :=
  match lastEvent with
  | none => TransportStatus.NotReceived
  | some e =>
    match e.activity.type with
    | HandlingEventType.Receive => TransportStatus.InPort
    | HandlingEventType.Load => TransportStatus.OnboardCarrier
    | HandlingEventType.Unload => TransportStatus.InPort
    | HandlingEventType.Customs => TransportStatus.InPort
    | HandlingEventType.Claim => TransportStatus.Claimed
    | HandlingEventType.NotHandled => TransportStatus.Unknown

/-- Modelled from the spec: last known location (delivery.go is not in the
source tree), 4.3 step 4: the last event's location; no location without an
event. -/
def calculateLastKnownLocation (lastEvent : Option HandlingEvent) : UNLocode :=
  match lastEvent with
  | none => ""
  | some e => e.activity.location

/-- Modelled from the spec: current voyage (delivery.go is not in the source
tree), 4.3 step 4: the last event's voyage number if its type is Load, else
empty. -/
def calculateCurrentVoyage (lastEvent : Option HandlingEvent) : VoyageNumber :=
  match lastEvent with
  | none => ""
  | some e => if e.activity.type = HandlingEventType.Load then e.activity.voyageNumber else ""

/-- Modelled from the spec: misdirection (delivery.go is not in the source
tree), 4.3 steps 1 and 5: no misdirection for the empty history, otherwise
`!itinerary.isExpected(lastEvent)` against the given (current) itinerary. -/
def calculateMisdirectedStatus (lastEvent : Option HandlingEvent) (itinerary : Itinerary) : Bool :=
  match lastEvent with
  | none => false
  | some e => !itinerary.isExpected e

/-- Modelled from the spec: unloaded at destination (delivery.go is not in the
source tree), 4.3 step 6: last event type is Unload and its location is the
route specification's destination. -/
def calculateUnloadedAtDestination (lastEvent : Option HandlingEvent)
    (rs : RouteSpecification) : Bool :=
  match lastEvent with
  | none => false
  | some e =>
    decide (e.activity.type = HandlingEventType.Unload) && e.activity.location == rs.destination

/-- Modelled from the spec: estimated time of arrival (delivery.go is not in
the source tree), 4.3 step 7 and edge case (c): the last leg's unload time if
the itinerary is non-empty and the cargo is not misdirected, else the zero
time. -/
def calculateETA (itinerary : Itinerary) (isMisdirected : Bool) : Time :=
  if isMisdirected then 0
  else
    match itinerary.legs.getLast? with
    | some last => last.unloadTime
    | none => 0

/-- Modelled from the spec: whether a leg "has had a matching Load event
recorded" (4.3 step 8; delivery.go is not in the source tree): some event among
`recorded` is a Load with the leg's voyage number at the leg's load location,
the match of the lookup helper `legsMatchingLoad(voyage, location)` of 4.1. -/
def legLoaded (recorded : List HandlingEvent) (l : Leg) : Bool :=
  recorded.any (fun e =>
    decide (e.activity.type = HandlingEventType.Load) &&
      e.activity.voyageNumber == l.voyageNumber && e.activity.location == l.loadLocation)

/-- Modelled from the spec: the test of the walk of 4.3 step 8 (delivery.go is
not in the source tree) on one leg: its "load location matches the last known
location" and it "has not yet had a matching Load event recorded". -/
def legAwaitsLoad (recorded : List HandlingEvent) (location : UNLocode) (l : Leg) : Bool :=
  l.loadLocation == location && !legLoaded recorded l

/-- Modelled from the spec: the walk of 4.3 step 8 (delivery.go is not in the
source tree): "walking the itinerary to find the leg whose load location
matches the last known location and has not yet had a matching Load event
recorded"; the first such leg in itinerary order, if any. -/
def legToLoad (legs : List Leg) (recorded : List HandlingEvent) (location : UNLocode) :
    Option Leg :=
  legs.find? (legAwaitsLoad recorded location)

/-- Modelled from the spec: 4.3 step 8 after a Receive (delivery.go is not in
the source tree): "after Receive or Unload at a non-final leg boundary, expect
Load on the next leg at that location/voyage", the leg being the one the walk
finds.  No such leg gives the zero activity. -/
def nextAfterReceive (legs : List Leg) (recorded : List HandlingEvent) (location : UNLocode) :
    HandlingActivity :=
  match legToLoad legs recorded location with
  | some l =>
    { type := HandlingEventType.Load, location := l.loadLocation, voyageNumber := l.voyageNumber }
  | none => HandlingActivity.zero

/-- Modelled from the spec: 4.3 step 8 after a Load (delivery.go is not in the
source tree): "after Load, expect Unload at that leg's unload
location/voyage".  The leg is the one the walk finds among the legs on the
event's voyage, `recorded` being the events before the Load itself, which is
the leg's matching Load event.  No such leg gives the zero activity. -/
def nextAfterLoad (legs : List Leg) (recorded : List HandlingEvent) (voyage : VoyageNumber)
    (location : UNLocode) : HandlingActivity :=
  match legToLoad (legs.filter (fun l => l.voyageNumber == voyage)) recorded location with
  | some l =>
    { type := HandlingEventType.Unload, location := l.unloadLocation,
      voyageNumber := l.voyageNumber }
  | none => HandlingActivity.zero

/-- Modelled from the spec: 4.3 step 8 after an Unload (delivery.go is not in
the source tree): "after Receive or Unload at a non-final leg boundary, expect
Load on the next leg at that location/voyage", the leg being the one the walk
finds; "after Unload at the final destination, expect Claim", when the walk
finds no leg and the last leg ends at the event's location.  Otherwise the
zero activity. -/
def nextAfterUnload (legs : List Leg) (recorded : List HandlingEvent) (location : UNLocode) :
    HandlingActivity :=
  match legToLoad legs recorded location with
  | some l =>
    { type := HandlingEventType.Load, location := l.loadLocation, voyageNumber := l.voyageNumber }
  | none =>
    match legs.getLast? with
    | some last =>
      if last.unloadLocation == location then
        { type := HandlingEventType.Claim, location := last.unloadLocation, voyageNumber := "" }
      else HandlingActivity.zero
    | none => HandlingActivity.zero

/-- Modelled from the spec: next expected activity (delivery.go is not in the
source tree), 4.3 steps 1 and 8.  Empty history: Receive at the route
specification's origin "if routed, else empty activity".  Otherwise the zero
activity "if misdirected or itinerary empty" and, as for the empty history,
unless the cargo is routed; then by the last event's type: the walks above
after Receive, Load and Unload, from the last event's location and the events
`recorded` before it, and nothing after Claim, Customs or NotHandled. -/
def calculateNextExpectedActivity (rs : RouteSpecification) (itinerary : Itinerary)
    (lastEvent : Option HandlingEvent) (recorded : List HandlingEvent)
    (routingStatus : RoutingStatus) (isMisdirected : Bool) : HandlingActivity :=
  if routingStatus ≠ RoutingStatus.Routed ∨ isMisdirected = true then HandlingActivity.zero
  else
    match lastEvent with
    | none => { type := HandlingEventType.Receive, location := rs.origin, voyageNumber := "" }
    | some e =>
      match e.activity.type with
      | HandlingEventType.Receive => nextAfterReceive itinerary.legs recorded e.activity.location
      | HandlingEventType.Load =>
        nextAfterLoad itinerary.legs recorded e.activity.voyageNumber e.activity.location
      | HandlingEventType.Unload => nextAfterUnload itinerary.legs recorded e.activity.location
      | HandlingEventType.Claim => HandlingActivity.zero
      | HandlingEventType.Customs => HandlingActivity.zero
      | HandlingEventType.NotHandled => HandlingActivity.zero

/-- Modelled from the spec: `derive(itinerary, history) -> Delivery` of 4.3
(delivery.go is not in the source tree), with the route specification that
steps 1, 6 and 9 read and "now" for the calculated timestamp. -/
def Delivery.derive (now : Time) (rs : RouteSpecification) (itinerary : Itinerary)
    (history : HandlingHistory) : Delivery :=
  let lastEvent := history.mostRecentlyCompletedEvent
  let recorded := history.recordedBeforeLastEvent
  let routingStatus := calculateRoutingStatus itinerary rs
  let isMisdirected := calculateMisdirectedStatus lastEvent itinerary
  { lastEvent := lastEvent
    recorded := recorded
    itinerary := itinerary
    routingStatus := routingStatus
    transportStatus := calculateTransportStatus lastEvent
    nextExpectedActivity :=
      calculateNextExpectedActivity rs itinerary lastEvent recorded routingStatus isMisdirected
    lastKnownLocation := calculateLastKnownLocation lastEvent
    currentVoyage := calculateCurrentVoyage lastEvent
    eta := calculateETA itinerary isMisdirected
    isMisdirected := isMisdirected
    isUnloadedAtDestination := calculateUnloadedAtDestination lastEvent rs
    calculatedAt := now }

/-! ## Cargo aggregate (specification 4.5) -/

/-- Modelled from the spec: `NewCargo(id, rs)` (cargo.go is not in the source
tree): the cargo as booked, with the origin copied from the route
specification, no itinerary, and the delivery derived from the empty
history. -/
def NewCargo (now : Time) (id : TrackingID) (rs : RouteSpecification) : Cargo :=
  { trackingID := id
    origin := rs.origin
    routeSpecification := rs
    itinerary := { legs := [] }
    delivery := Delivery.derive now rs { legs := [] } { handlingEvents := [] } }

/-- Modelled from the spec: `deriveDeliveryProgress(history)` of 4.5 (cargo.go
is not in the source tree): "invokes 4.3 with the cargo's current itinerary,
replaces the Delivery snapshot". -/
def Cargo.deriveDeliveryProgress (c : Cargo) (now : Time) (history : HandlingHistory) : Cargo :=
  { c with delivery := Delivery.derive now c.routeSpecification c.itinerary history }

/-- Modelled from the spec: the re-derivation that `assignToRoute` and
`specifyNewRoute` of 4.5 trigger (delivery.go is not in the source tree).
Neither operation is given a history, so the snapshot is derived anew, by the
rules of 4.3, from the last event the previous snapshot was derived from and
the events recorded before it. -/
def Delivery.updateOnRouting (d : Delivery) (now : Time) (rs : RouteSpecification)
    (itinerary : Itinerary) : Delivery :=
  let routingStatus := calculateRoutingStatus itinerary rs
  let isMisdirected := calculateMisdirectedStatus d.lastEvent itinerary
  { lastEvent := d.lastEvent
    recorded := d.recorded
    itinerary := itinerary
    routingStatus := routingStatus
    transportStatus := calculateTransportStatus d.lastEvent
    nextExpectedActivity :=
      calculateNextExpectedActivity rs itinerary d.lastEvent d.recorded routingStatus
        isMisdirected
    lastKnownLocation := calculateLastKnownLocation d.lastEvent
    currentVoyage := calculateCurrentVoyage d.lastEvent
    eta := calculateETA itinerary isMisdirected
    isMisdirected := isMisdirected
    isUnloadedAtDestination := calculateUnloadedAtDestination d.lastEvent rs
    calculatedAt := now }

/-- Modelled from the spec: `assignToRoute(itinerary)` of 4.5 (cargo.go is not
in the source tree): "replaces the itinerary unconditionally" and "triggers
delivery re-derivation". -/
def Cargo.AssignToRoute (c : Cargo) (now : Time) (itinerary : Itinerary) : Cargo :=
  { c with
    itinerary := itinerary
    delivery := c.delivery.updateOnRouting now c.routeSpecification itinerary }

/-- Modelled from the spec: `specifyNewRoute(newSpec)` of 4.5 (cargo.go is not
in the source tree): "replaces route specification", "the itinerary is left
as-is", and the delivery is derived anew. -/
def Cargo.SpecifyNewRoute (c : Cargo) (now : Time) (rs : RouteSpecification) : Cargo :=
  { c with
    routeSpecification := rs
    delivery := c.delivery.updateOnRouting now rs c.itinerary }

/-! ## Reference data -/

/-- Modelled from the spec: `Location` (location.go is not in the source
tree): "UN/LOCODE (unique identifier) + display name". -/
structure Location where
  unLocode : UNLocode
  name : String
deriving DecidableEq, Repr

/-- Modelled from the spec: `CarrierMovement` (voyage.go is not in the source
tree): departure and arrival location and time. -/
structure CarrierMovement where
  departureLocation : Location
  arrivalLocation : Location
  departureTime : Time
  arrivalTime : Time
deriving DecidableEq, Repr

/-- Modelled from the spec: `Voyage` (voyage.go is not in the source tree):
"voyage number (unique) + ordered Schedule of CarrierMovements". -/
structure Voyage where
  number : VoyageNumber
  schedule : List CarrierMovement
deriving DecidableEq, Repr

/-! ## Errors -/

/-- The error values of the repository: the three lookup errors of package
`goddd`, the `ErrInvalidArgument` of each use-case package (distinct values in
Go), and any other error a repository may return. -/
inductive Error where
  | ErrUnknownCargo
  | ErrUnknownVoyage
  | ErrUnknownLocation
  | HandlingErrInvalidArgument
  | BookingErrInvalidArgument
  | TrackingErrInvalidArgument
  | Other (msg : String)
deriving DecidableEq, Repr

/-! ## Repository interfaces

Every Go interface is a record of operations on a world state `σ`; an
operation returns its Go results together with the state it leaves. -/

/-- Go interface `goddd.CargoRepository`. -/
structure CargoRepository (σ : Type) where
  Store : Cargo → σ → Option Error × σ
  Find : TrackingID → σ → Except Error Cargo × σ
  FindAll : σ → List Cargo × σ

/-- Go interface `goddd.LocationRepository`. -/
structure LocationRepository (σ : Type) where
  Find : UNLocode → σ → Except Error Location × σ
  FindAll : σ → List Location × σ

/-- Go interface `goddd.VoyageRepository`. -/
structure VoyageRepository (σ : Type) where
  Find : VoyageNumber → σ → Except Error Voyage × σ

/-- Go interface `goddd.HandlingEventRepository`. -/
structure HandlingEventRepository (σ : Type) where
  Store : HandlingEvent → σ → σ
  QueryHandlingHistory : TrackingID → σ → HandlingHistory × σ

/-! ## Handling event factory (specification 4.2) -/

/-- Go `goddd.HandlingEventFactory`: the three repositories it looks up. -/
structure HandlingEventFactory (σ : Type) where
  CargoRepository : Goddd.CargoRepository σ
  VoyageRepository : Goddd.VoyageRepository σ
  LocationRepository : Goddd.LocationRepository σ

/-- Modelled from the spec: `HandlingEventFactory.CreateHandlingEvent`
(handling.go is not in the source tree), 4.2: validation "in order, each a
distinct failure": the cargo must exist; "if voyage number is non-empty, a
voyage with that number must exist"; the location must exist.  A failed lookup
fails the creation with the error the repository reported (the repositories
report `ErrUnknownCargo`, `ErrUnknownVoyage`, `ErrUnknownLocation`).  The
cargo's itinerary is not consulted.  The output is "a fully populated"
event. -/
def HandlingEventFactory.CreateHandlingEvent {σ : Type} (f : HandlingEventFactory σ)
    (registrationTime completionTime : Time) (id : TrackingID) (voyageNumber : VoyageNumber)
    (unLocode : UNLocode) (eventType : HandlingEventType) (w : σ) :
    Except Error HandlingEvent × σ :=
  match f.CargoRepository.Find id w with
  | (Except.error err, w1) => (Except.error err, w1)
  | (Except.ok _, w1) =>
    let voyageCheck : Option Error × σ :=
      if voyageNumber = "" then (none, w1)
      else
        match f.VoyageRepository.Find voyageNumber w1 with
        | (Except.error err, w2) => (some err, w2)
        | (Except.ok _, w2) => (none, w2)
    match voyageCheck with
    | (some err, w2) => (Except.error err, w2)
    | (none, w2) =>
      match f.LocationRepository.Find unLocode w2 with
      | (Except.error err, w3) => (Except.error err, w3)
      | (Except.ok _, w3) =>
        (Except.ok
          { trackingID := id
            activity := { type := eventType, location := unLocode, voyageNumber := voyageNumber }
            registrationTime := registrationTime
            completionTime := completionTime }, w3)

/-! ## Handling service (`handling/service.go`) -/

namespace Handling

/-- Go interface `handling.EventHandler`. -/
structure EventHandler (σ : Type) where
  CargoWasHandled : HandlingEvent → σ → σ

/-- Go `handling.service`. -/
structure service (σ : Type) where
  handlingEventRepository : HandlingEventRepository σ
  handlingEventFactory : HandlingEventFactory σ
  handlingEventHandler : EventHandler σ

/-- Go `service.RegisterHandlingEvent`; `now` is the `time.Now()` passed to the
factory as registration time.  The result is the returned error (`none` for
`nil`) and the state left. -/
def service.RegisterHandlingEvent {σ : Type} (s : service σ) (now : Time)
    (completionTime : Time) (trackingID : TrackingID) (voyage : VoyageNumber)
    (loc : UNLocode) (eventType : HandlingEventType) (w : σ) : Option Error × σ :=
  if completionTime = 0 ∨ trackingID = "" ∨ loc = "" ∨
      eventType = HandlingEventType.NotHandled then
    (some Error.HandlingErrInvalidArgument, w)
  else
    match s.handlingEventFactory.CreateHandlingEvent now completionTime trackingID voyage loc
        eventType w with
    | (Except.error err, w1) => (some err, w1)
    | (Except.ok e, w1) =>
      (none, s.handlingEventHandler.CargoWasHandled e (s.handlingEventRepository.Store e w1))

end Handling

/-! ## In-memory handling event repository (`inmem/inmem.go`) -/

/-- The in-memory handling event repository: Go
`map[TrackingID][]HandlingEvent`; a tracking id without entry reads as the nil
slice. -/
structure handlingEventRepository where
  events : TrackingID → List HandlingEvent

/-- Go `NewHandlingEventRepository`: the empty map. -/
def NewHandlingEventRepository : handlingEventRepository :=
  { events := fun _ => [] }

/-- Go `handlingEventRepository.Store`: appends the event to the slice of its
tracking id. -/
def handlingEventRepository.Store (r : handlingEventRepository) (e : HandlingEvent) :
    handlingEventRepository :=
  { events := fun id => if id = e.trackingID then r.events id ++ [e] else r.events id }

/-- Go `handlingEventRepository.QueryHandlingHistory`: the stored slice, as it
is. -/
def handlingEventRepository.QueryHandlingHistory (r : handlingEventRepository)
    (trackingID : TrackingID) : HandlingHistory :=
  { handlingEvents := r.events trackingID }

/-! ## In-memory cargo, location and voyage repositories (`inmem/inmem.go`) -/

/-- The in-memory cargo repository: Go `map[TrackingID]*Cargo`, as the list of
its entries, one per key.  The Go map holds pointers; every mutation of a
found cargo in the embedded services is followed by a `Store` of that cargo,
so the entries are kept as values. -/
structure cargoRepository where
  cargos : List (TrackingID × Cargo)
deriving DecidableEq, Repr

/-- Go `NewCargoRepository`: the empty map. -/
def NewCargoRepository : cargoRepository :=
  { cargos := [] }

/-- Go `cargoRepository.Store`: `r.cargos[c.TrackingID] = c`; the error is
always `nil`. -/
def cargoRepository.Store (r : cargoRepository) (c : Cargo) : cargoRepository :=
  { cargos := (c.trackingID, c) :: r.cargos.filter (fun p => p.1 != c.trackingID) }

/-- Go `cargoRepository.Find`. -/
def cargoRepository.Find (r : cargoRepository) (trackingID : TrackingID) : Except Error Cargo :=
  match r.cargos.lookup trackingID with
  | some c => Except.ok c
  | none => Except.error Error.ErrUnknownCargo

/-- Go `cargoRepository.FindAll`: the values of the map (Go leaves their order
open). -/
def cargoRepository.FindAll (r : cargoRepository) : List Cargo :=
  r.cargos.map Prod.snd

/-- The in-memory location repository: Go `map[UNLocode]Location`. -/
structure locationRepository where
  locations : List (UNLocode × Location)
deriving DecidableEq, Repr

/-- Go `locationRepository.Find`. -/
def locationRepository.Find (r : locationRepository) (locode : UNLocode) :
    Except Error Location :=
  match r.locations.lookup locode with
  | some l => Except.ok l
  | none => Except.error Error.ErrUnknownLocation

/-- Go `locationRepository.FindAll`. -/
def locationRepository.FindAll (r : locationRepository) : List Location :=
  r.locations.map Prod.snd

/-- The in-memory voyage repository: Go `map[VoyageNumber]*Voyage`. -/
structure voyageRepository where
  voyages : List (VoyageNumber × Voyage)
deriving DecidableEq, Repr

/-- Go `voyageRepository.Find`. -/
def voyageRepository.Find (r : voyageRepository) (voyageNumber : VoyageNumber) :
    Except Error Voyage :=
  match r.voyages.lookup voyageNumber with
  | some v => Except.ok v
  | none => Except.error Error.ErrUnknownVoyage

/-- Modelled from the spec: the sample locations (location.go is not in the
source tree): the UN/LOCODE is the one the Go constant of that name carries,
the display name is the Go identifier of the location. -/
def sampleLocation (unLocode : UNLocode) (name : String) : Location :=
  { unLocode := unLocode, name := name }

/-- Sample location `goddd.Stockholm`. -/
def Stockholm : Location := sampleLocation "SESTO" "Stockholm"
/-- Sample location `goddd.Melbourne`. -/
def Melbourne : Location := sampleLocation "AUMEL" "Melbourne"
/-- Sample location `goddd.Hongkong`. -/
def Hongkong : Location := sampleLocation "CNHKG" "Hongkong"
/-- Sample location `goddd.Tokyo`. -/
def Tokyo : Location := sampleLocation "JNTKO" "Tokyo"
/-- Sample location `goddd.Rotterdam`. -/
def Rotterdam : Location := sampleLocation "NLRTM" "Rotterdam"
/-- Sample location `goddd.Hamburg`. -/
def Hamburg : Location := sampleLocation "DEHAM" "Hamburg"
/-- Sample location `goddd.NewYork`. -/
def NewYork : Location := sampleLocation "USNYC" "NewYork"
/-- Sample location `goddd.Helsinki`. -/
def Helsinki : Location := sampleLocation "FIHEL" "Helsinki"

/-- Go `NewLocationRepository`: the six locations it registers. -/
def NewLocationRepository : locationRepository :=
  { locations :=
      [ ("SESTO", Stockholm), ("AUMEL", Melbourne), ("CNHKG", Hongkong),
        ("JNTKO", Tokyo), ("NLRTM", Rotterdam), ("DEHAM", Hamburg) ] }

/-- Modelled from the spec: `NewVoyage(number, schedule)` (voyage.go is not in
the source tree): the voyage with that number and schedule. -/
def NewVoyage (number : VoyageNumber) (schedule : List CarrierMovement) : Voyage :=
  { number := number, schedule := schedule }

/-- A carrier movement of `sample_voyages.go`: only the two locations are
set. -/
def movement (departure arrival : Location) : CarrierMovement :=
  { departureLocation := departure, arrivalLocation := arrival,
    departureTime := 0, arrivalTime := 0 }

/-- Sample voyage `V100` of `sample_voyages.go`. -/
def V100 : Voyage :=
  NewVoyage "V100" [movement Hongkong Tokyo, movement Tokyo NewYork]

/-- Sample voyage `V300` of `sample_voyages.go`. -/
def V300 : Voyage :=
  NewVoyage "V300"
    [movement Tokyo Rotterdam, movement Rotterdam Hamburg, movement Hamburg Melbourne,
      movement Melbourne Tokyo]

/-- Sample voyage `V400` of `sample_voyages.go`. -/
def V400 : Voyage :=
  NewVoyage "V400"
    [movement Hamburg Stockholm, movement Stockholm Helsinki, movement Helsinki Hamburg]

/-- Go `NewVoyageRepository`: the sample voyages and the five voyages of the
pathfinder, which have empty schedules. -/
def NewVoyageRepository : voyageRepository :=
  { voyages :=
      [ (V100.number, V100), (V300.number, V300), (V400.number, V400),
        ("0100S", NewVoyage "0100S" []), ("0200T", NewVoyage "0200T" []),
        ("0300A", NewVoyage "0300A" []), ("0301S", NewVoyage "0301S" []),
        ("0400S", NewVoyage "0400S" []) ] }

/-! ## A world of in-memory repositories -/

/-- The state of a server wired with the in-memory repositories, and the
events a stub handling event handler has been given (Go `stubEventHandler` of
`handling/service_test.go`). -/
structure World where
  cargos : cargoRepository
  locations : locationRepository
  voyages : voyageRepository
  events : handlingEventRepository
  handled : List HandlingEvent

/-- The world right after construction of the repositories. -/
def World.new : World :=
  { cargos := NewCargoRepository
    locations := NewLocationRepository
    voyages := NewVoyageRepository
    events := NewHandlingEventRepository
    handled := [] }

/-- The in-memory cargo repository as a `goddd.CargoRepository`. -/
def World.cargoRepository : CargoRepository World :=
  { Store := fun c w => (none, { w with cargos := w.cargos.Store c })
    Find := fun id w => (w.cargos.Find id, w)
    FindAll := fun w => (w.cargos.FindAll, w) }

/-- The in-memory location repository as a `goddd.LocationRepository`. -/
def World.locationRepository : LocationRepository World :=
  { Find := fun locode w => (w.locations.Find locode, w)
    FindAll := fun w => (w.locations.FindAll, w) }

/-- The in-memory voyage repository as a `goddd.VoyageRepository`. -/
def World.voyageRepository : VoyageRepository World :=
  { Find := fun n w => (w.voyages.Find n, w) }

/-- The in-memory handling event repository as a
`goddd.HandlingEventRepository`. -/
def World.handlingEventRepository : HandlingEventRepository World :=
  { Store := fun e w => { w with events := w.events.Store e }
    QueryHandlingHistory := fun id w => (w.events.QueryHandlingHistory id, w) }

/-- The handling event factory over the in-memory repositories, as assembled
in `cmd/server/main_test.go`. -/
def World.handlingEventFactory : HandlingEventFactory World :=
  { CargoRepository := World.cargoRepository
    VoyageRepository := World.voyageRepository
    LocationRepository := World.locationRepository }

/-- Go `stubEventHandler.CargoWasHandled` of `handling/service_test.go`:
appends the event to the events seen. -/
def World.stubEventHandler : Handling.EventHandler World :=
  { CargoWasHandled := fun e w => { w with handled := w.handled ++ [e] } }

/-- Go `handling.NewService` over the in-memory repositories and the stub
handler. -/
def World.handlingService : Handling.service World :=
  { handlingEventRepository := World.handlingEventRepository
    handlingEventFactory := World.handlingEventFactory
    handlingEventHandler := World.stubEventHandler }

/-! ## Booking service (`booking/service.go`) -/

namespace Booking

/-- Go interface `routing.Service`. -/
structure RoutingService (σ : Type) where
  FetchRoutesForSpecification : RouteSpecification → σ → List Itinerary × σ

/-- Go `booking.service`. -/
structure service (σ : Type) where
  cargos : CargoRepository σ
  locations : LocationRepository σ
  handlingEvents : HandlingEventRepository σ
  routingService : RoutingService σ

/-- Go `service.AssignCargoToRoute`; `now` is the time of the re-derivation. -/
def service.AssignCargoToRoute {σ : Type} (s : service σ) (now : Time) (id : TrackingID)
    (itinerary : Itinerary) (w : σ) : Option Error × σ :=
  if id = "" ∨ itinerary.legs.length = 0 then
    (some Error.BookingErrInvalidArgument, w)
  else
    match s.cargos.Find id w with
    | (Except.error err, w1) => (some err, w1)
    | (Except.ok c, w1) => s.cargos.Store (c.AssignToRoute now itinerary) w1

/-- Go `service.BookNewCargo`.  `NextTrackingID` stands for
`goddd.NextTrackingID`, which is not in the source tree: any generator of
tracking ids.  The result is the returned pair of tracking id and error, and
the state left. -/
def service.BookNewCargo {σ : Type} (s : service σ) (NextTrackingID : σ → TrackingID × σ)
    (now : Time) (origin destination : UNLocode) (arrivalDeadline : Time) (w : σ) :
    (TrackingID × Option Error) × σ :=
  if origin = "" ∨ destination = "" ∨ arrivalDeadline = 0 then
    (("", some Error.BookingErrInvalidArgument), w)
  else
    match NextTrackingID w with
    | (id, w1) =>
      let rs : RouteSpecification :=
        { origin := origin, destination := destination, arrivalDeadline := arrivalDeadline }
      let c := NewCargo now id rs
      match s.cargos.Store c w1 with
      | (some err, w2) => (("", some err), w2)
      | (none, w2) => ((c.trackingID, none), w2)

/-- Go `service.ChangeDestination`; `now` is the time of the re-derivation. -/
def service.ChangeDestination {σ : Type} (s : service σ) (now : Time) (id : TrackingID)
    (destination : UNLocode) (w : σ) : Option Error × σ :=
  if id = "" ∨ destination = "" then
    (some Error.BookingErrInvalidArgument, w)
  else
    match s.cargos.Find id w with
    | (Except.error err, w1) => (some err, w1)
    | (Except.ok c, w1) =>
      match s.locations.Find destination w1 with
      | (Except.error err, w2) => (some err, w2)
      | (Except.ok l, w2) =>
        s.cargos.Store
          (c.SpecifyNewRoute now
            { origin := c.origin, destination := l.unLocode,
              arrivalDeadline := c.routeSpecification.arrivalDeadline }) w2

/-- Go `service.RequestPossibleRoutesForCargo`. -/
def service.RequestPossibleRoutesForCargo {σ : Type} (s : service σ) (id : TrackingID)
    (w : σ) : List Itinerary × σ :=
  if id = "" then ([], w)
  else
    match s.cargos.Find id w with
    | (Except.error _, w1) => ([], w1)
    | (Except.ok c, w1) => s.routingService.FetchRoutesForSpecification c.routeSpecification w1

end Booking

/-! ## Tracking read model (`tracking/service.go`) -/

namespace Tracking

/-- Go `tracking.Event`, the read model of one handling event. -/
structure Event where
  description : String
  expected : Bool
deriving DecidableEq, Repr

/-- The description built in the loop body of Go `assembleEvents`; `now` is
`time.Now().Format(time.RFC3339)` at that iteration. -/
def describeEvent (e : HandlingEvent) (now : String) : String :=
  match e.activity.type with
  | HandlingEventType.NotHandled => "Cargo has not yet been received."
  | HandlingEventType.Receive =>
    "Received in " ++ e.activity.location ++ ", at " ++ now
  | HandlingEventType.Load =>
    "Loaded onto voyage " ++ e.activity.voyageNumber ++ " in " ++ e.activity.location ++
      ", at " ++ now ++ "."
  | HandlingEventType.Unload =>
    "Unloaded off voyage " ++ e.activity.voyageNumber ++ " in " ++ e.activity.location ++
      ", at " ++ now ++ "."
  | HandlingEventType.Claim =>
    "Claimed in " ++ e.activity.location ++ ", at " ++ now ++ "."
  | HandlingEventType.Customs =>
    "Cleared customs in " ++ e.activity.location ++ ", at " ++ now ++ "."

/-- The loop of Go `assembleEvents` over the history, from iteration `k` on;
`clock k` is the formatted `time.Now()` of iteration `k`. -/
def assembleEventsFrom (c : Cargo) (clock : Nat → String) (k : Nat) :
    List HandlingEvent → List Event
  | [] => []
  | e :: rest =>
    { description := describeEvent e (clock k), expected := c.itinerary.isExpected e } ::
      assembleEventsFrom c clock (k + 1) rest

/-- Go `assembleEvents(c, r)`: queries the history of the cargo's tracking id
and maps every event to its read model. -/
def assembleEvents (c : Cargo) (r : handlingEventRepository) (clock : Nat → String) :
    List Event :=
  assembleEventsFrom c clock 0 (r.QueryHandlingHistory c.trackingID).handlingEvents

end Tracking

/-! ## Sample data of the end-to-end scenario (`cmd/server/main_test.go`) -/

/-- Go `toDate(2009, time.March, day)`: 12:00 UTC on that day, in hours since
the zero time (17603160 is 00:00 UTC on 2009-02-28, the day before March 1). -/
def toDateMarch2009 (day : Int) : Time :=
  17603160 + 24 * day + 12

/-- The itinerary the stub routing service returns for origin CNHKG. -/
def hongkongToStockholm : Itinerary :=
  { legs :=
      [ { voyageNumber := "V100", loadLocation := "CNHKG", unloadLocation := "USNYC",
          loadTime := toDateMarch2009 3, unloadTime := toDateMarch2009 9 },
        { voyageNumber := "V200", loadLocation := "USNYC", unloadLocation := "USCHI",
          loadTime := toDateMarch2009 10, unloadTime := toDateMarch2009 14 },
        { voyageNumber := "V300", loadLocation := "USCHI", unloadLocation := "SESTO",
          loadTime := toDateMarch2009 7, unloadTime := toDateMarch2009 11 } ] }

/-- The itinerary the stub routing service returns for any other origin. -/
def tokyoToStockholm : Itinerary :=
  { legs :=
      [ { voyageNumber := "V300", loadLocation := "JNTKO", unloadLocation := "DEHAM",
          loadTime := toDateMarch2009 8, unloadTime := toDateMarch2009 12 },
        { voyageNumber := "V400", loadLocation := "DEHAM", unloadLocation := "SESTO",
          loadTime := toDateMarch2009 14, unloadTime := toDateMarch2009 15 } ] }

/-- The route specification booked in the scenario: CNHKG to SESTO, deadline
2009-03-18. -/
def hongkongStockholmSpec : RouteSpecification :=
  { origin := "CNHKG", destination := "SESTO", arrivalDeadline := toDateMarch2009 18 }

/-- A handling event as `RegisterHandlingEvent` of the scenario produces it. -/
def sampleEvent (type : HandlingEventType) (voyage : VoyageNumber) (location : UNLocode)
    (day : Int) : HandlingEvent :=
  { trackingID := "ABC123"
    activity := { type := type, location := location, voyageNumber := voyage }
    registrationTime := toDateMarch2009 20
    completionTime := toDateMarch2009 day }

/-- The route specification after the reroute of the scenario: JNTKO to SESTO. -/
def tokyoStockholmSpec : RouteSpecification :=
  { origin := "JNTKO", destination := "SESTO", arrivalDeadline := toDateMarch2009 18 }

/-- The scenario's history up to the load in Hongkong. -/
def historyLoadedInHongkong : HandlingHistory :=
  { handlingEvents :=
      [ sampleEvent HandlingEventType.Receive "" "CNHKG" 1,
        sampleEvent HandlingEventType.Load "V100" "CNHKG" 3 ] }

/-- The scenario's history up to the wrong unload in Tokyo. -/
def historyUnloadedInTokyo : HandlingHistory :=
  { handlingEvents := historyLoadedInHongkong.handlingEvents ++
      [ sampleEvent HandlingEventType.Unload "V100" "JNTKO" 5 ] }

/-- The scenario's history up to the unload in Stockholm. -/
def historyUnloadedInStockholm : HandlingHistory :=
  { handlingEvents := historyUnloadedInTokyo.handlingEvents ++
      [ sampleEvent HandlingEventType.Load "V300" "JNTKO" 8,
        sampleEvent HandlingEventType.Unload "V300" "DEHAM" 12,
        sampleEvent HandlingEventType.Load "V400" "DEHAM" 14,
        sampleEvent HandlingEventType.Unload "V400" "SESTO" 15 ] }

/-- The scenario's complete history, ending with the claim registered with
voyage V400. -/
def historyClaimed : HandlingHistory :=
  { handlingEvents := historyUnloadedInStockholm.handlingEvents ++
      [ sampleEvent HandlingEventType.Claim "V400" "SESTO" 16 ] }

/-! ## Sample data of the inspection tests (`inspection/inspection_test.go`) -/

/-- The test itinerary: voyage 001A from SESTO over AUMEL to CNHKG. -/
def stockholmToHongkong : Itinerary :=
  { legs :=
      [ { voyageNumber := "001A", loadLocation := "SESTO", unloadLocation := "AUMEL",
          loadTime := 0, unloadTime := 0 },
        { voyageNumber := "001A", loadLocation := "AUMEL", unloadLocation := "CNHKG",
          loadTime := 0, unloadTime := 0 } ] }

/-- The test route specification: SESTO to CNHKG, no deadline. -/
def stockholmHongkongSpec : RouteSpecification :=
  { origin := "SESTO", destination := "CNHKG", arrivalDeadline := 0 }

/-- Go `storeEvent` of the inspection tests: an event of voyage 001A with zero
times. -/
def storedEvent (type : HandlingEventType) (location : UNLocode) : HandlingEvent :=
  { trackingID := "ABC123"
    activity := { type := type, location := location, voyageNumber := "001A" }
    registrationTime := 0
    completionTime := 0 }

/-- The history of `TestInspectMisdirectedCargo`. -/
def historyMisdirectedTest : HandlingHistory :=
  { handlingEvents :=
      [ storedEvent HandlingEventType.Receive "SESTO",
        storedEvent HandlingEventType.Load "SESTO",
        storedEvent HandlingEventType.Unload "USNYC" ] }

/-- The history of `TestInspectUnloadedCargo`. -/
def historyUnloadedTest : HandlingHistory :=
  { handlingEvents :=
      [ storedEvent HandlingEventType.Receive "SESTO",
        storedEvent HandlingEventType.Load "SESTO",
        storedEvent HandlingEventType.Unload "AUMEL",
        storedEvent HandlingEventType.Load "AUMEL",
        storedEvent HandlingEventType.Unload "CNHKG" ] }

/-- A repository holding a Receive and a Load of cargo ABC123, stored through
`Store`. -/
def sampleRepository : handlingEventRepository :=
  (NewHandlingEventRepository.Store (sampleEvent HandlingEventType.Receive "" "CNHKG" 1)).Store
    (sampleEvent HandlingEventType.Load "V100" "CNHKG" 3)

/-- Two events completed at the same time, the unload stored first. -/
def historyTieLoadLast : HandlingHistory :=
  { handlingEvents :=
      [ sampleEvent HandlingEventType.Unload "V100" "JNTKO" 3,
        sampleEvent HandlingEventType.Load "V100" "CNHKG" 3 ] }

/-- The same two events, the load stored first. -/
def historyTieUnloadLast : HandlingHistory :=
  { handlingEvents :=
      [ sampleEvent HandlingEventType.Load "V100" "CNHKG" 3,
        sampleEvent HandlingEventType.Unload "V100" "JNTKO" 3 ] }

/-- The scenario's first two events, stored in reverse order. -/
def historyLoadedInHongkongReversed : HandlingHistory :=
  { handlingEvents :=
      [ sampleEvent HandlingEventType.Load "V100" "CNHKG" 3,
        sampleEvent HandlingEventType.Receive "" "CNHKG" 1 ] }

/-! ## The in-memory world of the scenarios -/

/-- Go `stubRoutingService.FetchRoutesForSpecification` of
`cmd/server/main_test.go`. -/
def World.stubRoutingService : Booking.RoutingService World :=
  { FetchRoutesForSpecification := fun rs w =>
      (if rs.origin = "CNHKG" then [hongkongToStockholm] else [tokyoToStockholm], w) }

/-- Go `booking.NewService` over the in-memory repositories. -/
def World.bookingService : Booking.service World :=
  { cargos := World.cargoRepository
    locations := World.locationRepository
    handlingEvents := World.handlingEventRepository
    routingService := World.stubRoutingService }

/-- A tracking id generator that always hands out ABC123. -/
def sampleNextTrackingID (w : World) : TrackingID × World :=
  ("ABC123", w)

/-- The world after cargo ABC123 was booked from CNHKG to SESTO. -/
def worldBooked : World :=
  { World.new with
    cargos := NewCargoRepository.Store (NewCargo 0 "ABC123" hongkongStockholmSpec) }

/-- The world after cargo ABC123 was also assigned to the Hongkong to Stockholm
itinerary. -/
def worldRouted : World :=
  { World.new with
    cargos := NewCargoRepository.Store
      ((NewCargo 0 "ABC123" hongkongStockholmSpec).AssignToRoute 0 hongkongToStockholm) }

/-- The cargo of the scenario after the wrong unload in Tokyo and the new
route specification from JNTKO: its origin is still CNHKG. -/
def cargoRespecified : Cargo :=
  ((((NewCargo 0 "ABC123" hongkongStockholmSpec).AssignToRoute 0
      hongkongToStockholm).deriveDeliveryProgress 0 historyUnloadedInTokyo).SpecifyNewRoute 0
    tokyoStockholmSpec)

/-- The world holding that cargo. -/
def worldRespecified : World :=
  { World.new with cargos := NewCargoRepository.Store cargoRespecified }

/-- The completion time of `handling/service_test.go`, 2015-11-10 23:00 UTC, in
hours since the zero time. -/
def completed2015 : Time :=
  17661887

/-- The state of the mocks of package `mock`: their `Invoked` flags, and the
events the stub handler has been given. -/
structure MockWorld where
  cargoStoreInvoked : Bool
  cargoFindInvoked : Bool
  voyageFindInvoked : Bool
  locationFindInvoked : Bool
  eventStoreInvoked : Bool
  handled : List HandlingEvent
deriving DecidableEq, Repr

/-- The mocks before any call. -/
def MockWorld.new : MockWorld :=
  { cargoStoreInvoked := false, cargoFindInvoked := false, voyageFindInvoked := false,
    locationFindInvoked := false, eventStoreInvoked := false, handled := [] }

/-- Go `new(goddd.Cargo)`, the value the mocked `FindFn` returns; the factory
discards it. -/
def zeroCargo : Cargo :=
  { trackingID := ""
    origin := ""
    routeSpecification := { origin := "", destination := "", arrivalDeadline := 0 }
    itinerary := { legs := [] }
    delivery :=
      { lastEvent := none, recorded := [], itinerary := { legs := [] },
        routingStatus := RoutingStatus.NotRouted,
        transportStatus := TransportStatus.NotReceived,
        nextExpectedActivity := HandlingActivity.zero, lastKnownLocation := "",
        currentVoyage := "", eta := 0, isMisdirected := false,
        isUnloadedAtDestination := false, calculatedAt := 0 } }

/-- Go `mock.CargoRepository` with the `StoreFn` and `FindFn` of
`TestRegisterHandlingEvent`; `FindAllFn` is not set there and never called. -/
def MockWorld.cargoRepository : CargoRepository MockWorld :=
  { Store := fun _ w => (none, { w with cargoStoreInvoked := true })
    Find := fun id w =>
      (if id = "no_such_id" then Except.error Error.ErrUnknownCargo else Except.ok zeroCargo,
        { w with cargoFindInvoked := true })
    FindAll := fun w => ([], w) }

/-- Go `mock.VoyageRepository` with the `FindFn` of `TestRegisterHandlingEvent`:
every voyage is found. -/
def MockWorld.voyageRepository : VoyageRepository MockWorld :=
  { Find := fun _ w =>
      (Except.ok { number := "", schedule := [] }, { w with voyageFindInvoked := true }) }

/-- Go `mock.LocationRepository` with the `FindFn` of
`TestRegisterHandlingEvent`: every location is found. -/
def MockWorld.locationRepository : LocationRepository MockWorld :=
  { Find := fun _ w =>
      (Except.ok { unLocode := "", name := "" }, { w with locationFindInvoked := true })
    FindAll := fun w => ([], w) }

/-- Go `mock.HandlingEventRepository` with the `StoreFn` of
`TestRegisterHandlingEvent`, which does nothing; `QueryHandlingHistoryFn` is
not set there and never called. -/
def MockWorld.handlingEventRepository : HandlingEventRepository MockWorld :=
  { Store := fun _ w => { w with eventStoreInvoked := true }
    QueryHandlingHistory := fun _ w => ({ handlingEvents := [] }, w) }

/-- The service under test in `TestRegisterHandlingEvent`. -/
def MockWorld.handlingService : Handling.service MockWorld :=
  { handlingEventRepository := MockWorld.handlingEventRepository
    handlingEventFactory :=
      { CargoRepository := MockWorld.cargoRepository
        VoyageRepository := MockWorld.voyageRepository
        LocationRepository := MockWorld.locationRepository }
    handlingEventHandler :=
      { CargoWasHandled := fun e w => { w with handled := w.handled ++ [e] } } }

/-! ## Inspection service (`inspection/inspection.go`) -/

namespace Inspection

/-- Go interface `inspection.EventHandler`. -/
structure EventHandler (σ : Type) where
  CargoWasMisdirected : Cargo → σ → σ
  CargoHasArrived : Cargo → σ → σ

/-- Go `inspection.service`. -/
structure service (σ : Type) where
  cargoRepository : CargoRepository σ
  handlingEventRepository : HandlingEventRepository σ
  cargoEventHandler : EventHandler σ

/-- Go `service.InspectCargo`; `now` is the time of the derivation.  The
result is the state left (the error of the final `Store` is dropped, as in
Go).  The handlers are given the cargo with its new delivery; the cargo is
stored after they ran. -/
def service.InspectCargo {σ : Type} (s : service σ) (now : Time) (trackingID : TrackingID)
    (w : σ) : σ :=
  match s.cargoRepository.Find trackingID w with
  | (Except.error _, w1) => w1
  | (Except.ok c, w1) =>
    match s.handlingEventRepository.QueryHandlingHistory trackingID w1 with
    | (h, w2) =>
      let c2 := c.deriveDeliveryProgress now h
      let w3 :=
        if c2.delivery.isMisdirected = true then s.cargoEventHandler.CargoWasMisdirected c2 w2
        else w2
      let w4 :=
        if c2.delivery.isUnloadedAtDestination = true then
          s.cargoEventHandler.CargoHasArrived c2 w3
        else w3
      (s.cargoRepository.Store c2 w4).2

end Inspection

/-- The state of an inspection service over the in-memory repositories with
the recording handler of `inspection/inspection_test.go` (Go
`stubEventHandler`, whose two methods append the cargo to one list). -/
structure InspectionWorld where
  cargos : cargoRepository
  events : handlingEventRepository
  handled : List Cargo

/-- The inspection service over that state. -/
def InspectionWorld.service : Inspection.service InspectionWorld :=
  { cargoRepository :=
      { Store := fun c w => (none, { w with cargos := w.cargos.Store c })
        Find := fun id w => (w.cargos.Find id, w)
        FindAll := fun w => (w.cargos.FindAll, w) }
    handlingEventRepository :=
      { Store := fun e w => { w with events := w.events.Store e }
        QueryHandlingHistory := fun id w => (w.events.QueryHandlingHistory id, w) }
    cargoEventHandler :=
      { CargoWasMisdirected := fun c w => { w with handled := w.handled ++ [c] }
        CargoHasArrived := fun c w => { w with handled := w.handled ++ [c] } } }

/-- The cargo of the inspection tests: ABC123 from SESTO to CNHKG, assigned to
the test itinerary. -/
def cargoInspected : Cargo :=
  (NewCargo 0 "ABC123" stockholmHongkongSpec).AssignToRoute 0 stockholmToHongkong

/-- The repository after the `storeEvent` calls of a test. -/
def storedEvents (h : HandlingHistory) : handlingEventRepository :=
  h.handlingEvents.foldl handlingEventRepository.Store NewHandlingEventRepository

/-- The state of `TestInspectMisdirectedCargo` before the inspection. -/
def worldMisdirectedTest : InspectionWorld :=
  { cargos := NewCargoRepository.Store cargoInspected
    events := storedEvents historyMisdirectedTest
    handled := [] }

/-- The state of `TestInspectUnloadedCargo` before the inspection. -/
def worldUnloadedTest : InspectionWorld :=
  { cargos := NewCargoRepository.Store cargoInspected
    events := storedEvents historyUnloadedTest
    handled := [] }

/-! ## Tracking read model: texts and assembly (`tracking/service.go`) -/

namespace Tracking

/-- Go `tracking.Cargo`, the read model for tracking views. -/
structure Cargo where
  trackingID : String
  statusText : String
  origin : String
  destination : String
  eta : Time
  nextExpectedActivity : String
  arrivalDeadline : Time
  events : List Event
deriving DecidableEq, Repr

/-- Go `nextExpectedActivity(c)`.  `typeString` stands for
`HandlingEventType.String` (handling.go is not in the source tree) and
`toLower` for `strings.ToLower`; `%s` renders the string-typed voyage number
and location as they are. -/
def nextExpectedActivity (typeString : HandlingEventType → String) (toLower : String → String)
    (c : Goddd.Cargo) : String :=
  let a := c.delivery.nextExpectedActivity
  let lead := "Next expected activity is to"
  match a.type with
  | HandlingEventType.Load =>
    lead ++ " " ++ toLower (typeString a.type) ++ " cargo onto voyage " ++ a.voyageNumber ++
      " in " ++ a.location ++ "."
  | HandlingEventType.Unload =>
    lead ++ " " ++ toLower (typeString a.type) ++ " cargo off of voyage " ++ a.voyageNumber ++
      " in " ++ a.location ++ "."
  | HandlingEventType.NotHandled =>
    "There are currently no expected activities for this cargo."
  | _ => lead ++ " " ++ toLower (typeString a.type) ++ " cargo in " ++ a.location ++ "."

/-- Go `assembleStatusText(c)`. -/
def assembleStatusText (c : Goddd.Cargo) : String :=
  match c.delivery.transportStatus with
  | TransportStatus.NotReceived => "Not received"
  | TransportStatus.InPort => "In port " ++ c.delivery.lastKnownLocation
  | TransportStatus.OnboardCarrier => "Onboard voyage " ++ c.delivery.currentVoyage
  | TransportStatus.Claimed => "Claimed"
  | _ => "Unknown"

/-- Go `assemble(c, her)` of package `tracking`. -/
def assemble (typeString : HandlingEventType → String) (toLower : String → String)
    (c : Goddd.Cargo) (her : handlingEventRepository) (clock : Nat → String) : Cargo :=
  { trackingID := c.trackingID
    origin := c.origin
    destination := c.routeSpecification.destination
    eta := c.delivery.eta
    nextExpectedActivity := nextExpectedActivity typeString toLower c
    arrivalDeadline := c.routeSpecification.arrivalDeadline
    statusText := assembleStatusText c
    events := assembleEvents c her clock }

/-- Go `service.Track(id)` over the in-memory repositories. -/
def Track (typeString : HandlingEventType → String) (toLower : String → String)
    (cargos : cargoRepository) (handlingEvents : handlingEventRepository)
    (clock : Nat → String) (id : String) : Except Error Cargo :=
  if id = "" then Except.error Error.TrackingErrInvalidArgument
  else
    match cargos.Find id with
    | Except.error err => Except.error err
    | Except.ok c => Except.ok (assemble typeString toLower c handlingEvents clock)

end Tracking

/-! ## Booking read model (`booking/service.go`) -/

namespace Booking

/-- Go `booking.Cargo`, the read model for booking views. -/
structure Cargo where
  arrivalDeadline : Time
  destination : String
  legs : List Leg
  misrouted : Bool
  origin : String
  routed : Bool
  trackingID : String
deriving DecidableEq, Repr

/-- Go `assemble(c, her)` of package `booking`; the handling event repository
is passed and not used. -/
def assemble {σ : Type} (c : Goddd.Cargo) (_her : HandlingEventRepository σ) : Cargo :=
  { trackingID := c.trackingID
    origin := c.origin
    destination := c.routeSpecification.destination
    misrouted := decide (c.delivery.routingStatus = RoutingStatus.Misrouted)
    routed := !c.itinerary.isEmpty
    arrivalDeadline := c.routeSpecification.arrivalDeadline
    legs := c.itinerary.legs }

/-- Go `service.LoadCargo`. -/
def service.LoadCargo {σ : Type} (s : service σ) (trackingID : TrackingID) (w : σ) :
    Except Error Cargo × σ :=
  if trackingID = "" then (Except.error Error.BookingErrInvalidArgument, w)
  else
    match s.cargos.Find trackingID w with
    | (Except.error err, w1) => (Except.error err, w1)
    | (Except.ok c, w1) => (Except.ok (assemble c s.handlingEvents), w1)

end Booking

/-- A cargo on the Hongkong to Stockholm itinerary whose route specification
was changed to start in JNTKO, with no handling event so far. -/
def cargoMisrouted : Cargo :=
  ((NewCargo 0 "ABC123" hongkongStockholmSpec).AssignToRoute 0
    hongkongToStockholm).SpecifyNewRoute 0 tokyoStockholmSpec

/-- Two events of one cargo, the second stored with the earlier completion
time (a retroactive registration). -/
def retroactiveRepository : handlingEventRepository :=
  (NewHandlingEventRepository.Store (sampleEvent HandlingEventType.Load "V100" "CNHKG" 5)).Store
    (sampleEvent HandlingEventType.Receive "" "CNHKG" 1)

/-- The state of `TestInspectMisdirectedCargo` after its first inspection. -/
def worldMisdirectedInspected : InspectionWorld :=
  InspectionWorld.service.InspectCargo 0 "ABC123" worldMisdirectedTest

/-- The cargo of that test with the delivery derived from its history. -/
def cargoInspectedMisdirected : Cargo :=
  cargoInspected.deriveDeliveryProgress 0 historyMisdirectedTest

/-! ## Auxiliary lemmas on the selection of the last event -/

theorem getLast?_orderedInsert (a : HandlingEvent) (l : List HandlingEvent) :
    (l.orderedInsert completedNoLaterThan a).getLast? =
      if ∀ b ∈ l, b.completionTime < a.completionTime then some a else l.getLast? := by
  induction l with
  | nil => simp
  | cons b l ih =>
    by_cases hab : a.completionTime ≤ b.completionTime
    · have h1 : ¬ ∀ x ∈ b :: l, x.completionTime < a.completionTime := by
        intro h
        exact absurd (h b (List.mem_cons_self b l)) (not_lt.mpr hab)
      rw [List.orderedInsert_of_le completedNoLaterThan l hab, if_neg h1]
      simp [List.getLast?_cons_cons]
    · have hins : (b :: l).orderedInsert completedNoLaterThan a =
          b :: l.orderedInsert completedNoLaterThan a := by
        simp [List.orderedInsert, completedNoLaterThan, hab]
      have hne : l.orderedInsert completedNoLaterThan a ≠ [] := by
        intro h
        have := List.orderedInsert_length completedNoLaterThan l a
        rw [h] at this
        simp at this
      rw [hins]
      obtain ⟨x, xs, hx⟩ := List.exists_cons_of_ne_nil hne
      rw [hx, List.getLast?_cons_cons, ← hx, ih]
      by_cases hall : ∀ x ∈ l, x.completionTime < a.completionTime
      · have h2 : ∀ x ∈ b :: l, x.completionTime < a.completionTime := by
          intro x hx
          rcases List.mem_cons.mp hx with h | h
          · subst h; exact not_le.mp hab
          · exact hall x h
        rw [if_pos hall, if_pos h2]
      · have h2 : ¬ ∀ x ∈ b :: l, x.completionTime < a.completionTime := by
          intro h
          exact hall (fun x hx => h x (List.mem_cons_of_mem b hx))
        rw [if_neg hall, if_neg h2]
        cases l with
        | nil => exact absurd (fun x hx => absurd hx (List.not_mem_nil x)) hall
        | cons c l => rw [List.getLast?_cons_cons]

theorem mostRecentlyCompletedEvent_nil :
    HandlingHistory.mostRecentlyCompletedEvent { handlingEvents := [] } = none := by
  simp [HandlingHistory.mostRecentlyCompletedEvent, HandlingHistory.sortedByCompletionTime]

theorem mostRecentlyCompletedEvent_cons (a : HandlingEvent) (t : List HandlingEvent) :
    HandlingHistory.mostRecentlyCompletedEvent { handlingEvents := a :: t } =
      if ∀ b ∈ t, b.completionTime < a.completionTime then some a
      else HandlingHistory.mostRecentlyCompletedEvent { handlingEvents := t } := by
  simp only [HandlingHistory.mostRecentlyCompletedEvent, HandlingHistory.sortedByCompletionTime,
    List.insertionSort, getLast?_orderedInsert, List.mem_insertionSort]

/-- The selected event splits the history: everything before it completed no
later, everything after it completed strictly earlier. -/
theorem mostRecentlyCompletedEvent_spec (l : List HandlingEvent) (hne : l ≠ []) :
    ∃ pre e post, l = pre ++ e :: post ∧
      HandlingHistory.mostRecentlyCompletedEvent { handlingEvents := l } = some e ∧
      (∀ x ∈ pre, x.completionTime ≤ e.completionTime) ∧
      (∀ x ∈ post, x.completionTime < e.completionTime) := by
  induction l with
  | nil => exact absurd rfl hne
  | cons a t ih =>
    by_cases hall : ∀ b ∈ t, b.completionTime < a.completionTime
    · refine ⟨[], a, t, rfl, ?_, ?_, hall⟩
      · rw [mostRecentlyCompletedEvent_cons, if_pos hall]
      · intro x hx
        exact absurd hx (List.not_mem_nil x)
    · have htne : t ≠ [] := by
        intro h
        subst h
        exact hall (fun x hx => absurd hx (List.not_mem_nil x))
      obtain ⟨pre, e, post, hsplit, hsel, hpre, hpost⟩ := ih htne
      refine ⟨a :: pre, e, post, ?_, ?_, ?_, hpost⟩
      · rw [hsplit]; rfl
      · rw [mostRecentlyCompletedEvent_cons, if_neg hall, hsel]
      · intro x hx
        rcases List.mem_cons.mp hx with h | h
        · subst h
          have hex : ∃ b ∈ t, x.completionTime ≤ b.completionTime := by
            by_contra hcon
            apply hall
            intro b hb
            by_contra hlt
            exact hcon ⟨b, hb, not_lt.mp hlt⟩
          obtain ⟨b, hb, hab⟩ := hex
          have hbe : b.completionTime ≤ e.completionTime := by
            rw [hsplit] at hb
            rcases List.mem_append.mp hb with h1 | h1
            · exact hpre b h1
            · rcases List.mem_cons.mp h1 with h2 | h2
              · subst h2; exact le_refl _
              · exact le_of_lt (hpost b h2)
          exact le_trans hab hbe
        · exact hpre x h

theorem mostRecentlyCompletedEvent_of_ne_nil (h : HandlingHistory)
    (hne : h.handlingEvents ≠ []) :
    ∃ e, e ∈ h.handlingEvents ∧ h.mostRecentlyCompletedEvent = some e := by
  obtain ⟨l⟩ := h
  obtain ⟨pre, e, post, hsplit, hsel, _, _⟩ := mostRecentlyCompletedEvent_spec l hne
  refine ⟨e, ?_, hsel⟩
  show e ∈ l
  rw [hsplit]
  simp

theorem mostRecentlyCompletedEvent_mem (h : HandlingHistory) (e : HandlingEvent)
    (hsel : h.mostRecentlyCompletedEvent = some e) : e ∈ h.handlingEvents := by
  have hmem := List.mem_of_getLast?_eq_some hsel
  exact (List.mem_insertionSort completedNoLaterThan).mp hmem

/-! ## Derivation from the empty history -/

/-- C1: for the empty handling history the derived delivery is NotReceived and
not misdirected; its next expected activity is Receive at the route
specification's origin when the routing status is Routed and the zero activity
otherwise, in particular for the empty itinerary; a freshly booked cargo is
NotRouted with the zero next activity; the routed Hongkong to Stockholm
itinerary gives Routed and Receive at CNHKG. -/
theorem c1_empty_history (now : Time) (id : TrackingID) (rs : RouteSpecification)
    (it : Itinerary) :
    (Delivery.derive now rs it { handlingEvents := [] }).transportStatus
        = TransportStatus.NotReceived ∧
    (Delivery.derive now rs it { handlingEvents := [] }).isMisdirected = false ∧
    (Delivery.derive now rs it { handlingEvents := [] }).nextExpectedActivity
        = (if (Delivery.derive now rs it { handlingEvents := [] }).routingStatus
              = RoutingStatus.Routed
           then { type := HandlingEventType.Receive, location := rs.origin, voyageNumber := "" }
           else HandlingActivity.zero) ∧
    (Delivery.derive now rs { legs := [] } { handlingEvents := [] }).routingStatus
        = RoutingStatus.NotRouted ∧
    (Delivery.derive now rs { legs := [] } { handlingEvents := [] }).nextExpectedActivity
        = HandlingActivity.zero ∧
    (NewCargo now id rs).delivery.transportStatus = TransportStatus.NotReceived ∧
    (NewCargo now id rs).delivery.routingStatus = RoutingStatus.NotRouted ∧
    (NewCargo now id rs).delivery.nextExpectedActivity = HandlingActivity.zero ∧
    (Delivery.derive now hongkongStockholmSpec hongkongToStockholm
        { handlingEvents := [] }).routingStatus = RoutingStatus.Routed ∧
    (Delivery.derive now hongkongStockholmSpec hongkongToStockholm
        { handlingEvents := [] }).nextExpectedActivity
        = { type := HandlingEventType.Receive, location := "CNHKG", voyageNumber := "" } := by
  have hnone := mostRecentlyCompletedEvent_nil
  refine ⟨?_, ?_, ?_, ?_, ?_, ?_, ?_, ?_, ?_, ?_⟩
  · simp [Delivery.derive, hnone, calculateTransportStatus]
  · simp [Delivery.derive, hnone, calculateMisdirectedStatus]
  · simp only [Delivery.derive, hnone, calculateMisdirectedStatus, calculateNextExpectedActivity]
    by_cases hr : calculateRoutingStatus it rs = RoutingStatus.Routed <;> simp [hr]
  · simp [Delivery.derive, calculateRoutingStatus, Itinerary.isEmpty]
  · simp [Delivery.derive, calculateRoutingStatus, Itinerary.isEmpty,
      calculateNextExpectedActivity]
  · simp [NewCargo, Delivery.derive, hnone, calculateTransportStatus]
  · simp [NewCargo, Delivery.derive, calculateRoutingStatus, Itinerary.isEmpty]
  · simp [NewCargo, Delivery.derive, calculateRoutingStatus, Itinerary.isEmpty,
      calculateNextExpectedActivity]
  · have hs : calculateRoutingStatus hongkongToStockholm hongkongStockholmSpec
        = RoutingStatus.Routed := by decide
    simp [Delivery.derive, hs]
  · have hs : calculateRoutingStatus hongkongToStockholm hongkongStockholmSpec
        = RoutingStatus.Routed := by decide
    simp [Delivery.derive, hs, hnone, calculateMisdirectedStatus,
      calculateNextExpectedActivity]
    rfl

/-! ## Derivation from a non-empty history -/

/-- C2: for a non-empty history the transport status comes from the type of
the last event alone: Receive, Unload and Customs give InPort, Load gives
OnboardCarrier, Claim gives Claimed, and it is never NotReceived. -/
theorem c2_transport_status (now : Time) (rs : RouteSpecification) (it : Itinerary)
    (h : HandlingHistory) (hne : h.handlingEvents ≠ []) :
    ∃ e, e ∈ h.handlingEvents ∧ h.mostRecentlyCompletedEvent = some e ∧
      ((e.activity.type = HandlingEventType.Receive ∨ e.activity.type = HandlingEventType.Unload
          ∨ e.activity.type = HandlingEventType.Customs) →
        (Delivery.derive now rs it h).transportStatus = TransportStatus.InPort) ∧
      (e.activity.type = HandlingEventType.Load →
        (Delivery.derive now rs it h).transportStatus = TransportStatus.OnboardCarrier) ∧
      (e.activity.type = HandlingEventType.Claim →
        (Delivery.derive now rs it h).transportStatus = TransportStatus.Claimed) ∧
      (Delivery.derive now rs it h).transportStatus ≠ TransportStatus.NotReceived ∧
      (∀ (now2 : Time) (rs2 : RouteSpecification) (it2 : Itinerary) (h2 : HandlingHistory)
          (e2 : HandlingEvent), h2.mostRecentlyCompletedEvent = some e2 →
          e2.activity.type = e.activity.type →
          (Delivery.derive now2 rs2 it2 h2).transportStatus
            = (Delivery.derive now rs it h).transportStatus) := by
  obtain ⟨e, hmem, hsel⟩ := mostRecentlyCompletedEvent_of_ne_nil h hne
  refine ⟨e, hmem, hsel, ?_, ?_, ?_, ?_, ?_⟩
  · intro ht
    rcases ht with ht | ht | ht <;>
      simp [Delivery.derive, hsel, calculateTransportStatus, ht]
  · intro ht
    simp [Delivery.derive, hsel, calculateTransportStatus, ht]
  · intro ht
    simp [Delivery.derive, hsel, calculateTransportStatus, ht]
  · simp only [Delivery.derive, hsel, calculateTransportStatus]
    cases e.activity.type <;> simp
  · intro now2 rs2 it2 h2 e2 hsel2 ht
    simp only [Delivery.derive, hsel, hsel2, calculateTransportStatus, ht]

theorem c2_transport_status_witness :
    historyClaimed.handlingEvents ≠ [] ∧
    ∃ e, e ∈ historyClaimed.handlingEvents ∧
      historyClaimed.mostRecentlyCompletedEvent = some e ∧
      ((e.activity.type = HandlingEventType.Receive ∨ e.activity.type = HandlingEventType.Unload
          ∨ e.activity.type = HandlingEventType.Customs) →
        (Delivery.derive 0 tokyoStockholmSpec tokyoToStockholm historyClaimed).transportStatus
          = TransportStatus.InPort) ∧
      (e.activity.type = HandlingEventType.Load →
        (Delivery.derive 0 tokyoStockholmSpec tokyoToStockholm historyClaimed).transportStatus
          = TransportStatus.OnboardCarrier) ∧
      (e.activity.type = HandlingEventType.Claim →
        (Delivery.derive 0 tokyoStockholmSpec tokyoToStockholm historyClaimed).transportStatus
          = TransportStatus.Claimed) ∧
      (Delivery.derive 0 tokyoStockholmSpec tokyoToStockholm historyClaimed).transportStatus
        ≠ TransportStatus.NotReceived ∧
      (∀ (now2 : Time) (rs2 : RouteSpecification) (it2 : Itinerary) (h2 : HandlingHistory)
          (e2 : HandlingEvent), h2.mostRecentlyCompletedEvent = some e2 →
          e2.activity.type = e.activity.type →
          (Delivery.derive now2 rs2 it2 h2).transportStatus
            = (Delivery.derive 0 tokyoStockholmSpec tokyoToStockholm
                historyClaimed).transportStatus) :=
  ⟨by decide,
    c2_transport_status 0 tokyoStockholmSpec tokyoToStockholm historyClaimed (by decide)⟩

/-- C3: for a non-empty history the last known location is the last event's
location, and the current voyage is the last event's voyage number if that
event is a Load and the empty voyage number for every other type; the final
Claim registered with V400 leaves the current voyage empty. -/
theorem c3_location_and_voyage (now : Time) (rs : RouteSpecification) (it : Itinerary)
    (h : HandlingHistory) (hne : h.handlingEvents ≠ []) :
    (∃ e, e ∈ h.handlingEvents ∧ h.mostRecentlyCompletedEvent = some e ∧
      (Delivery.derive now rs it h).lastKnownLocation = e.activity.location ∧
      (Delivery.derive now rs it h).currentVoyage
        = (if e.activity.type = HandlingEventType.Load then e.activity.voyageNumber else "")) ∧
    historyClaimed.mostRecentlyCompletedEvent
      = some (sampleEvent HandlingEventType.Claim "V400" "SESTO" 16) ∧
    (Delivery.derive now tokyoStockholmSpec tokyoToStockholm historyClaimed).currentVoyage = "" ∧
    (Delivery.derive now tokyoStockholmSpec tokyoToStockholm historyClaimed).lastKnownLocation
      = "SESTO" := by
  obtain ⟨e, hmem, hsel⟩ := mostRecentlyCompletedEvent_of_ne_nil h hne
  have hc : historyClaimed.mostRecentlyCompletedEvent
      = some (sampleEvent HandlingEventType.Claim "V400" "SESTO" 16) := by decide
  refine ⟨⟨e, hmem, hsel, ?_, ?_⟩, hc, ?_, ?_⟩
  · simp [Delivery.derive, hsel, calculateLastKnownLocation]
  · simp [Delivery.derive, hsel, calculateCurrentVoyage]
  · simp [Delivery.derive, hc, calculateCurrentVoyage, sampleEvent]
  · simp [Delivery.derive, hc, calculateLastKnownLocation, sampleEvent]

theorem c3_location_and_voyage_witness :
    historyLoadedInHongkong.handlingEvents ≠ [] ∧
    (Delivery.derive 0 hongkongStockholmSpec hongkongToStockholm
        historyLoadedInHongkong).currentVoyage = "V100" ∧
    (Delivery.derive 0 hongkongStockholmSpec hongkongToStockholm
        historyLoadedInHongkong).lastKnownLocation = "CNHKG" := by
  have hsel : historyLoadedInHongkong.mostRecentlyCompletedEvent
      = some (sampleEvent HandlingEventType.Load "V100" "CNHKG" 3) := by decide
  obtain ⟨⟨e, _, he, hloc, hvoy⟩, _⟩ :=
    c3_location_and_voyage 0 hongkongStockholmSpec hongkongToStockholm
      historyLoadedInHongkong (by decide)
  rw [hsel] at he
  cases he
  exact ⟨by decide, by rw [hvoy]; rfl, by rw [hloc]; rfl⟩

/-- C4: for a non-empty history the misdirection flag is the negation of
`isExpected` of the last event against the itinerary in force, also through
the cargo's own itinerary; a misdirected last event still sets last known
location and transport status: Unload of V100 at JNTKO on the Hongkong to
Stockholm itinerary gives InPort at JNTKO, no current voyage, misdirected. -/
theorem c4_misdirection (now : Time) (rs : RouteSpecification) (it : Itinerary)
    (c : Cargo) (h : HandlingHistory) (hne : h.handlingEvents ≠ []) :
    (∃ e, e ∈ h.handlingEvents ∧ h.mostRecentlyCompletedEvent = some e ∧
      (Delivery.derive now rs it h).isMisdirected = !it.isExpected e ∧
      (c.deriveDeliveryProgress now h).delivery.isMisdirected = !c.itinerary.isExpected e ∧
      (Delivery.derive now rs it h).lastKnownLocation = e.activity.location ∧
      (Delivery.derive now rs it h).transportStatus = calculateTransportStatus (some e)) ∧
    (Delivery.derive now hongkongStockholmSpec hongkongToStockholm
        historyUnloadedInTokyo).isMisdirected = true ∧
    (Delivery.derive now hongkongStockholmSpec hongkongToStockholm
        historyUnloadedInTokyo).transportStatus = TransportStatus.InPort ∧
    (Delivery.derive now hongkongStockholmSpec hongkongToStockholm
        historyUnloadedInTokyo).lastKnownLocation = "JNTKO" ∧
    (Delivery.derive now hongkongStockholmSpec hongkongToStockholm
        historyUnloadedInTokyo).currentVoyage = "" ∧
    (Delivery.derive now stockholmHongkongSpec stockholmToHongkong
        historyMisdirectedTest).isMisdirected = true := by
  obtain ⟨e, hmem, hsel⟩ := mostRecentlyCompletedEvent_of_ne_nil h hne
  have ht : historyUnloadedInTokyo.mostRecentlyCompletedEvent
      = some (sampleEvent HandlingEventType.Unload "V100" "JNTKO" 5) := by decide
  have hm : historyMisdirectedTest.mostRecentlyCompletedEvent
      = some (storedEvent HandlingEventType.Unload "USNYC") := by decide
  refine ⟨⟨e, hmem, hsel, ?_, ?_, ?_, ?_⟩, ?_, ?_, ?_, ?_, ?_⟩
  · simp [Delivery.derive, hsel, calculateMisdirectedStatus]
  · simp [Cargo.deriveDeliveryProgress, Delivery.derive, hsel, calculateMisdirectedStatus]
  · simp [Delivery.derive, hsel, calculateLastKnownLocation]
  · simp [Delivery.derive, hsel]
  · simp only [Delivery.derive, ht, calculateMisdirectedStatus]
    decide
  · simp only [Delivery.derive, ht]
    decide
  · simp only [Delivery.derive, ht]
    decide
  · simp only [Delivery.derive, ht]
    decide
  · simp only [Delivery.derive, hm, calculateMisdirectedStatus]
    decide

theorem c4_misdirection_witness :
    historyLoadedInHongkong.handlingEvents ≠ [] ∧
    (Delivery.derive 0 hongkongStockholmSpec hongkongToStockholm
        historyLoadedInHongkong).isMisdirected = false ∧
    (Delivery.derive 0 hongkongStockholmSpec tokyoToStockholm
        historyLoadedInHongkong).isMisdirected = true := by
  have hsel : historyLoadedInHongkong.mostRecentlyCompletedEvent
      = some (sampleEvent HandlingEventType.Load "V100" "CNHKG" 3) := by decide
  obtain ⟨⟨e, _, he, h1, _⟩, _⟩ :=
    c4_misdirection 0 hongkongStockholmSpec hongkongToStockholm
      (NewCargo 0 "ABC123" hongkongStockholmSpec) historyLoadedInHongkong (by decide)
  obtain ⟨⟨e2, _, he2, h2, _⟩, _⟩ :=
    c4_misdirection 0 hongkongStockholmSpec tokyoToStockholm
      (NewCargo 0 "ABC123" hongkongStockholmSpec) historyLoadedInHongkong (by decide)
  rw [hsel] at he he2
  cases he
  cases he2
  exact ⟨by decide, by rw [h1]; decide, by rw [h2]; decide⟩

/-! ## Expected events -/

/-- C5: for a non-empty itinerary an event is expected exactly when it is a
Receive at the first leg's load location, or a Claim at the last leg's unload
location, or a Load for which some leg has the same voyage number and the
event's location as load location, or an Unload for which some leg has the
same voyage number and the event's location as unload location, or a Customs
event. -/
theorem c5_isExpected_iff (it : Itinerary) (event : HandlingEvent) (hne : it.legs ≠ []) :
    it.isExpected event = true ↔
      (event.activity.type = HandlingEventType.Receive ∧
        ∃ first, it.legs.head? = some first ∧ first.loadLocation = event.activity.location) ∨
      (event.activity.type = HandlingEventType.Claim ∧
        ∃ last, it.legs.getLast? = some last ∧ last.unloadLocation = event.activity.location) ∨
      (event.activity.type = HandlingEventType.Load ∧
        ∃ l ∈ it.legs, l.voyageNumber = event.activity.voyageNumber ∧
          l.loadLocation = event.activity.location) ∨
      (event.activity.type = HandlingEventType.Unload ∧
        ∃ l ∈ it.legs, l.voyageNumber = event.activity.voyageNumber ∧
          l.unloadLocation = event.activity.location) ∨
      event.activity.type = HandlingEventType.Customs := by
  obtain ⟨legs⟩ := it
  obtain ⟨tid, ⟨ty, loc, voy⟩, rt, ct⟩ := event
  have hemp : legs.isEmpty = false := by
    cases legs with
    | nil => exact absurd rfl hne
    | cons a t => rfl
  cases ty
  · simp [Itinerary.isExpected, Itinerary.isEmpty, hemp]
  · cases hh : legs.head? <;>
      simp [Itinerary.isExpected, Itinerary.isEmpty, hemp, hh]
  · simp [Itinerary.isExpected, Itinerary.isEmpty, hemp, Itinerary.legsMatchingLoad,
      List.isEmpty_iff, List.filter_eq_nil_iff]
  · simp [Itinerary.isExpected, Itinerary.isEmpty, hemp, Itinerary.legsMatchingUnload,
      List.isEmpty_iff, List.filter_eq_nil_iff]
  · simp [Itinerary.isExpected, Itinerary.isEmpty, hemp]
  · cases hh : legs.getLast? <;>
      simp [Itinerary.isExpected, Itinerary.isEmpty, hemp, hh]

theorem c5_isExpected_iff_witness :
    hongkongToStockholm.legs ≠ [] ∧
    hongkongToStockholm.isExpected (sampleEvent HandlingEventType.Unload "V100" "JNTKO" 5)
      = false ∧
    ¬ ∃ l ∈ hongkongToStockholm.legs, l.voyageNumber = "V100" ∧ l.unloadLocation = "JNTKO" := by
  have hiff := c5_isExpected_iff hongkongToStockholm
    (sampleEvent HandlingEventType.Unload "V100" "JNTKO" 5) (by decide)
  have hfalse : hongkongToStockholm.isExpected
      (sampleEvent HandlingEventType.Unload "V100" "JNTKO" 5) = false := by decide
  refine ⟨by decide, hfalse, ?_⟩
  intro hex
  have htrue := hiff.mpr (Or.inr (Or.inr (Or.inr (Or.inl ⟨rfl, hex⟩))))
  rw [hfalse] at htrue
  exact Bool.false_ne_true htrue

theorem assembleEventsFrom_length (c : Cargo) (clock : Nat → String) (k : Nat)
    (l : List HandlingEvent) : (Tracking.assembleEventsFrom c clock k l).length = l.length := by
  induction l generalizing k with
  | nil => rfl
  | cons e rest ih => simp [Tracking.assembleEventsFrom, ih]

theorem assembleEventsFrom_expected (c : Cargo) (clock : Nat → String) (k : Nat)
    (l : List HandlingEvent) (ev : Tracking.Event)
    (hev : ev ∈ Tracking.assembleEventsFrom c clock k l) :
    ∃ e ∈ l, ev.expected = c.itinerary.isExpected e := by
  induction l generalizing k with
  | nil => simp [Tracking.assembleEventsFrom] at hev
  | cons e rest ih =>
    simp only [Tracking.assembleEventsFrom, List.mem_cons] at hev
    rcases hev with hev | hev
    · exact ⟨e, List.mem_cons_self e rest, by rw [hev]⟩
    · obtain ⟨x, hx, hxe⟩ := ih (k + 1) hev
      exact ⟨x, List.mem_cons_of_mem e hx, hxe⟩

/-- C6: for an itinerary without legs `isExpected` is false for every handling
event of every type, and the tracking read model of a cargo with such an
itinerary reports every event of its history, each as not expected. -/
theorem c6_empty_itinerary_unexpected (c : Cargo) (r : handlingEventRepository)
    (clock : Nat → String) (hempty : c.itinerary.legs = []) :
    (∀ e : HandlingEvent, c.itinerary.isExpected e = false) ∧
    (Tracking.assembleEvents c r clock).length
      = (r.QueryHandlingHistory c.trackingID).handlingEvents.length ∧
    (∀ ev ∈ Tracking.assembleEvents c r clock, ev.expected = false) := by
  have hall : ∀ e : HandlingEvent, c.itinerary.isExpected e = false := by
    intro e
    simp [Itinerary.isExpected, Itinerary.isEmpty, hempty]
  refine ⟨hall, assembleEventsFrom_length c clock 0 _, ?_⟩
  intro ev hev
  obtain ⟨e, _, he⟩ := assembleEventsFrom_expected c clock 0 _ ev hev
  rw [he]
  exact hall e

theorem c6_empty_itinerary_unexpected_witness :
    (NewCargo 0 "ABC123" hongkongStockholmSpec).itinerary.legs = [] ∧
    (Tracking.assembleEvents (NewCargo 0 "ABC123" hongkongStockholmSpec) sampleRepository
        (fun _ => "T")).length = 2 ∧
    (∀ ev ∈ Tracking.assembleEvents (NewCargo 0 "ABC123" hongkongStockholmSpec)
        sampleRepository (fun _ => "T"), ev.expected = false) :=
  ⟨rfl,
    (c6_empty_itinerary_unexpected (NewCargo 0 "ABC123" hongkongStockholmSpec)
      sampleRepository (fun _ => "T") rfl).2.1.trans (by decide),
    (c6_empty_itinerary_unexpected (NewCargo 0 "ABC123" hongkongStockholmSpec)
      sampleRepository (fun _ => "T") rfl).2.2⟩

/-! ## Routing status -/

theorem satisfies_iff (it : Itinerary) (rs : RouteSpecification) :
    it.satisfies rs = true ↔
      ∃ first last, it.legs.head? = some first ∧ it.legs.getLast? = some last ∧
        first.loadLocation = rs.origin ∧ last.unloadLocation = rs.destination ∧
        (rs.arrivalDeadline = 0 ∨ last.unloadTime ≤ rs.arrivalDeadline) := by
  unfold Itinerary.satisfies
  cases hh : it.legs.head? with
  | none => simp
  | some first =>
    cases hl : it.legs.getLast? with
    | none => simp
    | some last => simp [and_assoc]

/-- C7: the derived routing status is NotRouted exactly when the itinerary has
no legs, Routed exactly when the itinerary satisfies the route specification
(first leg's load location is the origin, last leg's unload location is the
destination, and no deadline is set or the last leg's unload time is at most
the deadline), and Misrouted exactly otherwise; it is the same for any two
histories (and derivation times). -/
theorem c7_routing_status (now now2 : Time) (rs : RouteSpecification) (it : Itinerary)
    (h h2 : HandlingHistory) :
    ((Delivery.derive now rs it h).routingStatus = RoutingStatus.NotRouted ↔ it.legs = []) ∧
    ((Delivery.derive now rs it h).routingStatus = RoutingStatus.Routed ↔
      ∃ first last, it.legs.head? = some first ∧ it.legs.getLast? = some last ∧
        first.loadLocation = rs.origin ∧ last.unloadLocation = rs.destination ∧
        (rs.arrivalDeadline = 0 ∨ last.unloadTime ≤ rs.arrivalDeadline)) ∧
    ((Delivery.derive now rs it h).routingStatus = RoutingStatus.Misrouted ↔
      it.legs ≠ [] ∧
      ¬ ∃ first last, it.legs.head? = some first ∧ it.legs.getLast? = some last ∧
        first.loadLocation = rs.origin ∧ last.unloadLocation = rs.destination ∧
        (rs.arrivalDeadline = 0 ∨ last.unloadTime ≤ rs.arrivalDeadline)) ∧
    (Delivery.derive now2 rs it h2).routingStatus = (Delivery.derive now rs it h).routingStatus ∧
    (Delivery.derive now tokyoStockholmSpec hongkongToStockholm
        historyUnloadedInTokyo).routingStatus = RoutingStatus.Misrouted ∧
    (Delivery.derive now tokyoStockholmSpec tokyoToStockholm
        historyUnloadedInTokyo).routingStatus = RoutingStatus.Routed := by
  have hd : ∀ (n : Time) (x : HandlingHistory),
      (Delivery.derive n rs it x).routingStatus = calculateRoutingStatus it rs := fun _ _ => rfl
  rw [hd, hd, ← satisfies_iff]
  refine ⟨?_, ?_, ?_, rfl, ?_, ?_⟩
  rotate_left 3
  · show calculateRoutingStatus hongkongToStockholm tokyoStockholmSpec = RoutingStatus.Misrouted
    decide
  · show calculateRoutingStatus tokyoToStockholm tokyoStockholmSpec = RoutingStatus.Routed
    decide
  · cases hl : it.legs with
    | nil => simp [calculateRoutingStatus, Itinerary.isEmpty, hl]
    | cons a t =>
      by_cases hs : it.satisfies rs = true <;>
        simp [calculateRoutingStatus, Itinerary.isEmpty, hl, hs]
  · cases hl : it.legs with
    | nil => simp [calculateRoutingStatus, Itinerary.isEmpty, hl, Itinerary.satisfies]
    | cons a t =>
      by_cases hs : it.satisfies rs = true <;>
        simp [calculateRoutingStatus, Itinerary.isEmpty, hl, hs]
  · cases hl : it.legs with
    | nil => simp [calculateRoutingStatus, Itinerary.isEmpty, hl]
    | cons a t =>
      by_cases hs : it.satisfies rs = true <;>
        simp [calculateRoutingStatus, Itinerary.isEmpty, hl, hs]

/-! ## Unloaded at destination -/

/-- C8: `isUnloadedAtDestination` of a derived delivery is true if and only if
the history is non-empty, the last event's type is Unload and the last event's
location is the route specification's destination. -/
theorem c8_unloaded_at_destination (now : Time) (rs : RouteSpecification) (it : Itinerary)
    (h : HandlingHistory) :
    ((Delivery.derive now rs it h).isUnloadedAtDestination = true ↔
      h.handlingEvents ≠ [] ∧
      ∃ e, h.mostRecentlyCompletedEvent = some e ∧
        e.activity.type = HandlingEventType.Unload ∧ e.activity.location = rs.destination) ∧
    (Delivery.derive now stockholmHongkongSpec stockholmToHongkong
        historyUnloadedTest).isUnloadedAtDestination = true ∧
    (Delivery.derive now stockholmHongkongSpec stockholmToHongkong
        historyMisdirectedTest).isUnloadedAtDestination = false := by
  refine ⟨?_, ?_, ?_⟩
  rotate_left 1
  · show calculateUnloadedAtDestination historyUnloadedTest.mostRecentlyCompletedEvent
      stockholmHongkongSpec = true
    decide
  · show calculateUnloadedAtDestination historyMisdirectedTest.mostRecentlyCompletedEvent
      stockholmHongkongSpec = false
    decide
  show calculateUnloadedAtDestination h.mostRecentlyCompletedEvent rs = true ↔ _
  cases hsel : h.mostRecentlyCompletedEvent with
  | none => simp [calculateUnloadedAtDestination]
  | some e =>
    have hmem := mostRecentlyCompletedEvent_mem h e hsel
    have hne : h.handlingEvents ≠ [] := List.ne_nil_of_mem hmem
    simp [calculateUnloadedAtDestination, hne]

/-! ## Next expected activity -/

theorem mostRecentlyCompletedEvent_greatest (h : HandlingHistory) (e : HandlingEvent)
    (hsel : h.mostRecentlyCompletedEvent = some e) :
    ∀ x ∈ h.handlingEvents, x.completionTime ≤ e.completionTime := by
  obtain ⟨l⟩ := h
  have hne : l ≠ [] := List.ne_nil_of_mem (mostRecentlyCompletedEvent_mem ⟨l⟩ e hsel)
  obtain ⟨pre, e2, post, hsplit, hsel2, hpre, hpost⟩ := mostRecentlyCompletedEvent_spec l hne
  rw [hsel] at hsel2
  cases hsel2
  intro x hx
  have hx2 : x ∈ pre ++ e :: post := hsplit ▸ hx
  rcases List.mem_append.mp hx2 with h1 | h1
  · exact hpre x h1
  · rcases List.mem_cons.mp h1 with h2 | h2
    · rw [h2]
    · exact le_of_lt (hpost x h2)

/-- C10 as stated fails on ties: two histories hold the same two events, both
completed at the same time, in different insertion order; the later stored one
is the last event, so one history gives OnboardCarrier and not misdirected,
the other InPort and misdirected. -/
theorem c10_counterexample :
    historyTieLoadLast.handlingEvents ≠ [] ∧
    List.Perm historyTieLoadLast.handlingEvents historyTieUnloadLast.handlingEvents ∧
    (Delivery.derive 0 hongkongStockholmSpec hongkongToStockholm
        historyTieLoadLast).transportStatus = TransportStatus.OnboardCarrier ∧
    (Delivery.derive 0 hongkongStockholmSpec hongkongToStockholm
        historyTieUnloadLast).transportStatus = TransportStatus.InPort ∧
    (Delivery.derive 0 hongkongStockholmSpec hongkongToStockholm
        historyTieLoadLast).isMisdirected = false ∧
    (Delivery.derive 0 hongkongStockholmSpec hongkongToStockholm
        historyTieUnloadLast).isMisdirected = true := by
  refine ⟨by decide, ?_, by decide, by decide, by decide, by decide⟩
  exact List.Perm.swap _ _ []

/-- C10 (amended): for a non-empty history the event used by derivation as the
last event is the one with the greatest completion time, the latest in history
order among equal completion times; two histories holding the same events in
different insertion order select the same last event and yield the same
transport status and misdirection flag whenever no other event of the history
shares the completion time of that last event. -/
theorem c10_last_event_by_completion_time (now : Time) (rs : RouteSpecification)
    (it : Itinerary) (h : HandlingHistory) (hne : h.handlingEvents ≠ []) :
    ∃ pre e post, h.handlingEvents = pre ++ e :: post ∧
      h.mostRecentlyCompletedEvent = some e ∧
      (∀ x ∈ pre, x.completionTime ≤ e.completionTime) ∧
      (∀ x ∈ post, x.completionTime < e.completionTime) ∧
      (Delivery.derive now rs it h).transportStatus = calculateTransportStatus (some e) ∧
      (Delivery.derive now rs it h).isMisdirected = calculateMisdirectedStatus (some e) it ∧
      (∀ h2 : HandlingHistory, List.Perm h.handlingEvents h2.handlingEvents →
        (∀ x ∈ h.handlingEvents, x.completionTime = e.completionTime → x = e) →
        h2.mostRecentlyCompletedEvent = some e ∧
        (Delivery.derive now rs it h2).transportStatus
          = (Delivery.derive now rs it h).transportStatus ∧
        (Delivery.derive now rs it h2).isMisdirected
          = (Delivery.derive now rs it h).isMisdirected) := by
  obtain ⟨l⟩ := h
  obtain ⟨pre, e, post, hsplit, hsel, hpre, hpost⟩ := mostRecentlyCompletedEvent_spec l hne
  have hmem : e ∈ l := mostRecentlyCompletedEvent_mem ⟨l⟩ e hsel
  have hsame : ∀ h2 : HandlingHistory, List.Perm l h2.handlingEvents →
      (∀ x ∈ l, x.completionTime = e.completionTime → x = e) →
      h2.mostRecentlyCompletedEvent = some e := by
    intro h2 hperm huniq
    have hne2 : h2.handlingEvents ≠ [] := List.ne_nil_of_mem (hperm.subset hmem)
    obtain ⟨e2, hmem2, hsel2⟩ := mostRecentlyCompletedEvent_of_ne_nil h2 hne2
    have hmem2l : e2 ∈ l := hperm.symm.subset hmem2
    have hle : e2.completionTime ≤ e.completionTime :=
      mostRecentlyCompletedEvent_greatest ⟨l⟩ e hsel e2 hmem2l
    have hge : e.completionTime ≤ e2.completionTime :=
      mostRecentlyCompletedEvent_greatest h2 e2 hsel2 e (hperm.subset hmem)
    rw [hsel2, huniq e2 hmem2l (le_antisymm hle hge)]
  refine ⟨pre, e, post, hsplit, hsel, hpre, hpost, ?_, ?_, ?_⟩
  · simp only [Delivery.derive, hsel]
  · simp only [Delivery.derive, hsel]
  · intro h2 hperm huniq
    have hsel2 := hsame h2 hperm huniq
    refine ⟨hsel2, ?_, ?_⟩
    · simp only [Delivery.derive, hsel, hsel2]
    · simp only [Delivery.derive, hsel, hsel2]

theorem c10_last_event_by_completion_time_witness :
    historyLoadedInHongkong.handlingEvents ≠ [] ∧
    List.Perm historyLoadedInHongkong.handlingEvents
      historyLoadedInHongkongReversed.handlingEvents ∧
    historyLoadedInHongkongReversed.mostRecentlyCompletedEvent
      = some (sampleEvent HandlingEventType.Load "V100" "CNHKG" 3) ∧
    (Delivery.derive 0 hongkongStockholmSpec hongkongToStockholm
        historyLoadedInHongkongReversed).transportStatus
      = (Delivery.derive 0 hongkongStockholmSpec hongkongToStockholm
        historyLoadedInHongkong).transportStatus ∧
    (Delivery.derive 0 hongkongStockholmSpec hongkongToStockholm
        historyLoadedInHongkongReversed).isMisdirected
      = (Delivery.derive 0 hongkongStockholmSpec hongkongToStockholm
        historyLoadedInHongkong).isMisdirected := by
  have hsel : historyLoadedInHongkong.mostRecentlyCompletedEvent
      = some (sampleEvent HandlingEventType.Load "V100" "CNHKG" 3) := by decide
  have hperm : List.Perm historyLoadedInHongkong.handlingEvents
      historyLoadedInHongkongReversed.handlingEvents := List.Perm.swap _ _ []
  obtain ⟨pre, e, post, _, he, _, _, _, _, hsame⟩ :=
    c10_last_event_by_completion_time 0 hongkongStockholmSpec hongkongToStockholm
      historyLoadedInHongkong (by decide)
  rw [hsel] at he
  cases he
  exact ⟨by decide, hperm, hsame historyLoadedInHongkongReversed hperm (by decide)⟩

/-! ## Estimated time of arrival -/

/-- C11 as stated fails in its parenthesis: the itinerary of the inspection
tests has legs without times, so right after routing with an empty history
the itinerary is non-empty, the cargo is routed and not misdirected, and yet
the ETA, the last leg's unload time, is the zero time. -/
theorem c11_counterexample :
    cargoInspected
      = (NewCargo 0 "ABC123" stockholmHongkongSpec).AssignToRoute 0 stockholmToHongkong ∧
    cargoInspected.delivery.lastEvent = none ∧
    cargoInspected.itinerary.legs ≠ [] ∧
    cargoInspected.delivery.routingStatus = RoutingStatus.Routed ∧
    cargoInspected.delivery.isMisdirected = false ∧
    stockholmToHongkong.legs.getLast?.map (fun l => l.unloadTime) = some 0 ∧
    cargoInspected.delivery.eta = 0 := by
  decide

/-- C11 (amended): the derived ETA is the last leg's unload time when the
itinerary is non-empty and the cargo is not misdirected, and the zero time when
the itinerary is empty or the cargo is misdirected; right after routing with
an empty history it is the last leg's unload time of the assigned itinerary,
so it is non-zero exactly when that unload time is not the zero time (as in
the end-to-end scenario), and before routing it is the zero time. -/
theorem c11_eta (now : Time) (id : TrackingID) (rs : RouteSpecification) (it : Itinerary)
    (h : HandlingHistory) :
    (∀ last, it.legs.getLast? = some last →
      (Delivery.derive now rs it h).isMisdirected = false →
      (Delivery.derive now rs it h).eta = last.unloadTime) ∧
    (it.legs = [] → (Delivery.derive now rs it h).eta = 0) ∧
    ((Delivery.derive now rs it h).isMisdirected = true →
      (Delivery.derive now rs it h).eta = 0) ∧
    (∀ last, it.legs.getLast? = some last →
      (Delivery.derive now rs it { handlingEvents := [] }).eta = last.unloadTime ∧
      ((NewCargo now id rs).AssignToRoute now it).delivery.eta = last.unloadTime ∧
      (((NewCargo now id rs).AssignToRoute now it).delivery.eta ≠ 0 ↔ last.unloadTime ≠ 0)) ∧
    (NewCargo now id rs).delivery.eta = 0 ∧
    ((NewCargo now id hongkongStockholmSpec).AssignToRoute now
        hongkongToStockholm).delivery.eta = toDateMarch2009 11 ∧
    ((NewCargo now id hongkongStockholmSpec).AssignToRoute now
        hongkongToStockholm).delivery.eta ≠ 0 ∧
    (Delivery.derive now hongkongStockholmSpec hongkongToStockholm
        historyUnloadedInTokyo).eta = 0 := by
  have hd : (Delivery.derive now rs it h).eta
      = calculateETA it (Delivery.derive now rs it h).isMisdirected := rfl
  have hempty : ∀ (r : RouteSpecification) (i : Itinerary),
      ((NewCargo now id r).AssignToRoute now i).delivery.eta = calculateETA i false :=
    fun _ _ => rfl
  have hrouted : ((NewCargo now id hongkongStockholmSpec).AssignToRoute now
      hongkongToStockholm).delivery.eta = toDateMarch2009 11 := by
    rw [hempty]
    decide
  refine ⟨?_, ?_, ?_, ?_, ?_, hrouted, ?_, ?_⟩
  · intro last hlast hm
    rw [hd, hm]
    simp [calculateETA, hlast]
  · intro hl
    rw [hd]
    cases (Delivery.derive now rs it h).isMisdirected <;> simp [calculateETA, hl]
  · intro hm
    rw [hd, hm]
    simp [calculateETA]
  · intro last hlast
    have heta : ((NewCargo now id rs).AssignToRoute now it).delivery.eta = last.unloadTime := by
      rw [hempty]
      simp [calculateETA, hlast]
    refine ⟨?_, heta, by rw [heta]⟩
    show calculateETA it false = last.unloadTime
    simp [calculateETA, hlast]
  · show calculateETA { legs := [] } false = 0
    decide
  · rw [hrouted]
    decide
  · show calculateETA hongkongToStockholm
      (calculateMisdirectedStatus historyUnloadedInTokyo.mostRecentlyCompletedEvent
        hongkongToStockholm) = 0
    decide

/-! ## Routing changes of the cargo -/

theorem updateOnRouting_derive (now0 now : Time) (rs0 rs : RouteSpecification)
    (it0 it : Itinerary) (h : HandlingHistory) :
    (Delivery.derive now0 rs0 it0 h).updateOnRouting now rs it = Delivery.derive now rs it h :=
  rfl

/-- C12: over the in-memory repositories, event creation fails with unknown
cargo if no cargo has the tracking id; otherwise with unknown voyage if the
voyage number is non-empty and no voyage has it (also when the location is
unknown too); otherwise with unknown location if no location has the
UN/LOCODE; otherwise it yields the event.  An empty voyage number is never
rejected, and an event off the cargo's itinerary (Unload of V100 at JNTKO) is
accepted. -/
theorem c12_event_creation_order (w : World) (registered completed : Time) (id : TrackingID)
    (voyage : VoyageNumber) (loc : UNLocode) (type : HandlingEventType) :
    World.handlingEventFactory.CreateHandlingEvent registered completed id voyage loc type w
      = (if w.cargos.cargos.lookup id = none then Except.error Error.ErrUnknownCargo
         else if voyage ≠ "" ∧ w.voyages.voyages.lookup voyage = none then
           Except.error Error.ErrUnknownVoyage
         else if w.locations.locations.lookup loc = none then
           Except.error Error.ErrUnknownLocation
         else
           Except.ok
             { trackingID := id
               activity := { type := type, location := loc, voyageNumber := voyage }
               registrationTime := registered
               completionTime := completed }, w) ∧
    (World.handlingEventFactory.CreateHandlingEvent registered completed "ABC123" "XX000"
        "ZZZZZ" HandlingEventType.Load worldRouted).1 = Except.error Error.ErrUnknownVoyage ∧
    (World.handlingEventFactory.CreateHandlingEvent registered completed "ABC123" ""
        "ZZZZZ" HandlingEventType.Receive worldRouted).1 = Except.error Error.ErrUnknownLocation ∧
    (World.handlingEventFactory.CreateHandlingEvent registered completed "ABC123" ""
        "CNHKG" HandlingEventType.Receive worldRouted).1
      = Except.ok
          { trackingID := "ABC123"
            activity := { type := HandlingEventType.Receive, location := "CNHKG",
                          voyageNumber := "" }
            registrationTime := registered
            completionTime := completed } ∧
    (World.handlingEventFactory.CreateHandlingEvent registered completed "ABC123" "V100"
        "JNTKO" HandlingEventType.Unload worldRouted).1
      = Except.ok
          { trackingID := "ABC123"
            activity := { type := HandlingEventType.Unload, location := "JNTKO",
                          voyageNumber := "V100" }
            registrationTime := registered
            completionTime := completed } ∧
    hongkongToStockholm.isExpected
        { trackingID := "ABC123"
          activity := { type := HandlingEventType.Unload, location := "JNTKO",
                        voyageNumber := "V100" }
          registrationTime := registered
          completionTime := completed } = false := by
  have hgen : ∀ (w : World) (id : TrackingID) (voyage : VoyageNumber) (loc : UNLocode)
      (type : HandlingEventType),
      World.handlingEventFactory.CreateHandlingEvent registered completed id voyage loc type w
      = (if w.cargos.cargos.lookup id = none then Except.error Error.ErrUnknownCargo
         else if voyage ≠ "" ∧ w.voyages.voyages.lookup voyage = none then
           Except.error Error.ErrUnknownVoyage
         else if w.locations.locations.lookup loc = none then
           Except.error Error.ErrUnknownLocation
         else
           Except.ok
             { trackingID := id
               activity := { type := type, location := loc, voyageNumber := voyage }
               registrationTime := registered
               completionTime := completed }, w) := by
    intro w id voyage loc type
    simp only [HandlingEventFactory.CreateHandlingEvent, World.handlingEventFactory,
      World.cargoRepository, World.voyageRepository, World.locationRepository,
      cargoRepository.Find, voyageRepository.Find, locationRepository.Find]
    cases hc : w.cargos.cargos.lookup id with
    | none => simp
    | some c =>
      by_cases hv : voyage = ""
      · cases hl : w.locations.locations.lookup loc <;> simp [hv, hl]
      · cases hvl : w.voyages.voyages.lookup voyage with
        | none => simp [hv, hvl]
        | some v => cases hl : w.locations.locations.lookup loc <;> simp [hv, hvl, hl]
  have hc : worldRouted.cargos.cargos.lookup "ABC123" ≠ none := by decide
  have hx : worldRouted.voyages.voyages.lookup "XX000" = none := by decide
  have hv : worldRouted.voyages.voyages.lookup "V100" ≠ none := by decide
  have hz : worldRouted.locations.locations.lookup "ZZZZZ" = none := by decide
  have hk : worldRouted.locations.locations.lookup "CNHKG" ≠ none := by decide
  have hj : worldRouted.locations.locations.lookup "JNTKO" ≠ none := by decide
  refine ⟨hgen w id voyage loc type, ?_, ?_, ?_, ?_, ?_⟩
  · rw [hgen]; simp [hc, hx]
  · rw [hgen]; simp [hc, hz]
  · rw [hgen]; simp [hc, hk]
  · rw [hgen]; simp [hc, hv, hj]
  · simp [Itinerary.isExpected, Itinerary.isEmpty, hongkongToStockholm,
      Itinerary.legsMatchingUnload]

/-! ## Registration of handling events -/

theorem createHandlingEvent_ok {σ : Type} (f : HandlingEventFactory σ)
    (registered completed : Time) (id : TrackingID) (voyage : VoyageNumber) (loc : UNLocode)
    (type : HandlingEventType) (w w1 : σ) (e : HandlingEvent)
    (h : f.CreateHandlingEvent registered completed id voyage loc type w = (Except.ok e, w1)) :
    e = { trackingID := id
          activity := { type := type, location := loc, voyageNumber := voyage }
          registrationTime := registered
          completionTime := completed } := by
  unfold HandlingEventFactory.CreateHandlingEvent at h
  rcases hc : f.CargoRepository.Find id w with ⟨rc, wc⟩
  rw [hc] at h
  cases rc with
  | error err => simp at h
  | ok c =>
    simp only at h
    split at h
    · simp at h
    · split at h
      · simp at h
      · simp only [Prod.mk.injEq, Except.ok.injEq] at h
        exact h.1.symm

theorem inmem_createHandlingEvent_state (w : World) (registered completed : Time)
    (id : TrackingID) (voyage : VoyageNumber) (loc : UNLocode) (type : HandlingEventType) :
    (World.handlingEventFactory.CreateHandlingEvent registered completed id voyage loc
      type w).2 = w := by
  simp only [HandlingEventFactory.CreateHandlingEvent, World.handlingEventFactory,
    World.cargoRepository, World.voyageRepository, World.locationRepository,
    cargoRepository.Find, voyageRepository.Find, locationRepository.Find]
  cases hc : w.cargos.cargos.lookup id with
  | none => simp
  | some c =>
    by_cases hv : voyage = ""
    · cases hl : w.locations.locations.lookup loc <;> simp [hv, hl]
    · cases hvl : w.voyages.voyages.lookup voyage with
      | none => simp [hv, hvl]
      | some v => cases hl : w.locations.locations.lookup loc <;> simp [hv, hvl, hl]

/-- C13: `RegisterHandlingEvent` returns `ErrInvalidArgument` whenever the
completion time is the zero time, the tracking id is empty, the location code
is empty or the event type is NotHandled; whatever the repositories, the
factory and the handler are, the state is left as it was: no lookup was made,
no event stored, no handler called. -/
theorem c13_invalid_argument {σ : Type} (s : Handling.service σ) (now completionTime : Time)
    (trackingID : TrackingID) (voyage : VoyageNumber) (loc : UNLocode)
    (eventType : HandlingEventType) (w : σ)
    (hbad : completionTime = 0 ∨ trackingID = "" ∨ loc = "" ∨
      eventType = HandlingEventType.NotHandled) :
    s.RegisterHandlingEvent now completionTime trackingID voyage loc eventType w
      = (some Error.HandlingErrInvalidArgument, w) := by
  simp [Handling.service.RegisterHandlingEvent, hbad]

theorem c13_invalid_argument_witness :
    ((0 : Time) = 0 ∨ ("no_such_id" : TrackingID) = "" ∨ ("SESTO" : UNLocode) = "" ∨
      HandlingEventType.Load = HandlingEventType.NotHandled) ∧
    MockWorld.handlingService.RegisterHandlingEvent 5 0 "no_such_id" "V100" "SESTO"
        HandlingEventType.Load MockWorld.new
      = (some Error.HandlingErrInvalidArgument, MockWorld.new) ∧
    MockWorld.new.cargoFindInvoked = false ∧
    (MockWorld.handlingService.RegisterHandlingEvent 5 completed2015 "no_such_id" "V100"
        "SESTO" HandlingEventType.Load MockWorld.new).2.cargoFindInvoked = true :=
  ⟨Or.inl rfl,
    c13_invalid_argument MockWorld.handlingService 5 0 "no_such_id" "V100" "SESTO"
      HandlingEventType.Load MockWorld.new (Or.inl rfl),
    rfl, by decide⟩

/-- C14: when event creation fails inside `RegisterHandlingEvent`, the
factory's error is returned unchanged and the state is the one the factory
left: nothing is stored and the handler is not notified.  Over the in-memory
repositories the whole world, with the history of every tracking id and the
events the handler has seen, is unchanged.  In `TestRegisterHandlingEvent`,
after one successful and one failed registration (unknown cargo) the handler
has seen exactly one event. -/
theorem c14_creation_failure {σ : Type} (s : Handling.service σ) (now completionTime : Time)
    (trackingID : TrackingID) (voyage : VoyageNumber) (loc : UNLocode)
    (eventType : HandlingEventType) (w w1 : σ) (err : Error)
    (hvalid : ¬ (completionTime = 0 ∨ trackingID = "" ∨ loc = "" ∨
      eventType = HandlingEventType.NotHandled))
    (hfail : s.handlingEventFactory.CreateHandlingEvent now completionTime trackingID voyage
      loc eventType w = (Except.error err, w1)) :
    s.RegisterHandlingEvent now completionTime trackingID voyage loc eventType w
      = (some err, w1) ∧
    (∀ (ww : World) (err2 : Error),
      (World.handlingEventFactory.CreateHandlingEvent now completionTime trackingID voyage
        loc eventType ww).1 = Except.error err2 →
      World.handlingService.RegisterHandlingEvent now completionTime trackingID voyage loc
        eventType ww = (some err2, ww)) ∧
    (MockWorld.handlingService.RegisterHandlingEvent now completed2015 "ABC123" "V100" "SESTO"
        HandlingEventType.Load MockWorld.new).1 = none ∧
    (MockWorld.handlingService.RegisterHandlingEvent now completed2015 "ABC123" "V100" "SESTO"
        HandlingEventType.Load MockWorld.new).2.handled.length = 1 ∧
    (MockWorld.handlingService.RegisterHandlingEvent now completed2015 "no_such_id" "V100"
        "SESTO" HandlingEventType.Load
        (MockWorld.handlingService.RegisterHandlingEvent now completed2015 "ABC123" "V100"
          "SESTO" HandlingEventType.Load MockWorld.new).2).1 = some Error.ErrUnknownCargo ∧
    (MockWorld.handlingService.RegisterHandlingEvent now completed2015 "no_such_id" "V100"
        "SESTO" HandlingEventType.Load
        (MockWorld.handlingService.RegisterHandlingEvent now completed2015 "ABC123" "V100"
          "SESTO" HandlingEventType.Load MockWorld.new).2).2.handled.length = 1 := by
  have hc : completed2015 ≠ 0 := by decide
  refine ⟨?_, ?_, ?_, ?_, ?_, ?_⟩
  · simp only [Handling.service.RegisterHandlingEvent, if_neg hvalid, hfail]
  · intro ww err2 h2
    have hst := inmem_createHandlingEvent_state ww now completionTime trackingID voyage loc
      eventType
    have hpair : World.handlingEventFactory.CreateHandlingEvent now completionTime trackingID
        voyage loc eventType ww = (Except.error err2, ww) := Prod.ext h2 hst
    simp only [Handling.service.RegisterHandlingEvent, if_neg hvalid, World.handlingService,
      hpair]
  all_goals
    simp [Handling.service.RegisterHandlingEvent, MockWorld.handlingService,
      HandlingEventFactory.CreateHandlingEvent, MockWorld.cargoRepository,
      MockWorld.voyageRepository, MockWorld.locationRepository,
      MockWorld.handlingEventRepository, MockWorld.new, hc]

theorem c14_creation_failure_witness :
    ¬ (completed2015 = 0 ∨ ("no_such_id" : TrackingID) = "" ∨ ("SESTO" : UNLocode) = "" ∨
      HandlingEventType.Load = HandlingEventType.NotHandled) ∧
    World.handlingEventFactory.CreateHandlingEvent 5 completed2015 "no_such_id" "V100"
        "SESTO" HandlingEventType.Load worldRouted
      = (Except.error Error.ErrUnknownCargo, worldRouted) ∧
    World.handlingService.RegisterHandlingEvent 5 completed2015 "no_such_id" "V100" "SESTO"
        HandlingEventType.Load worldRouted = (some Error.ErrUnknownCargo, worldRouted) := by
  have hvalid : ¬ (completed2015 = 0 ∨ ("no_such_id" : TrackingID) = "" ∨
      ("SESTO" : UNLocode) = "" ∨
      HandlingEventType.Load = HandlingEventType.NotHandled) := by decide
  have hfail : World.handlingEventFactory.CreateHandlingEvent 5 completed2015 "no_such_id"
      "V100" "SESTO" HandlingEventType.Load worldRouted
      = (Except.error Error.ErrUnknownCargo, worldRouted) := by
    refine Prod.ext ?_ (inmem_createHandlingEvent_state _ _ _ _ _ _ _)
    rfl
  exact ⟨hvalid, hfail,
    (c14_creation_failure World.handlingService 5 completed2015 "no_such_id" "V100" "SESTO"
      HandlingEventType.Load worldRouted worldRouted Error.ErrUnknownCargo hvalid hfail).1⟩

/-- C15: when `RegisterHandlingEvent` succeeds, the factory has produced one
event carrying the given tracking id, event type, location, voyage number and
completion time; that event is stored once and then the handler is notified
once with that same event.  Over the in-memory repository and the recording
handler: the history of the given tracking id is the previous one with the
event appended at the end, every other history is unchanged, and the handler
has seen one more event, that one. -/
theorem c15_registration_success {σ : Type} (s : Handling.service σ)
    (now completionTime : Time) (trackingID : TrackingID) (voyage : VoyageNumber)
    (loc : UNLocode) (eventType : HandlingEventType) (w : σ) (ww : World)
    (hok : (s.RegisterHandlingEvent now completionTime trackingID voyage loc eventType w).1
      = none)
    (hok2 : (World.handlingService.RegisterHandlingEvent now completionTime trackingID voyage
      loc eventType ww).1 = none) :
    (∃ w1, s.handlingEventFactory.CreateHandlingEvent now completionTime trackingID voyage loc
        eventType w
        = (Except.ok
            { trackingID := trackingID
              activity := { type := eventType, location := loc, voyageNumber := voyage }
              registrationTime := now
              completionTime := completionTime }, w1) ∧
      (s.RegisterHandlingEvent now completionTime trackingID voyage loc eventType w).2
        = s.handlingEventHandler.CargoWasHandled
            { trackingID := trackingID
              activity := { type := eventType, location := loc, voyageNumber := voyage }
              registrationTime := now
              completionTime := completionTime }
            (s.handlingEventRepository.Store
              { trackingID := trackingID
                activity := { type := eventType, location := loc, voyageNumber := voyage }
                registrationTime := now
                completionTime := completionTime } w1)) ∧
    ((World.handlingService.RegisterHandlingEvent now completionTime trackingID voyage
        loc eventType ww).2.events.QueryHandlingHistory trackingID).handlingEvents
      = (ww.events.QueryHandlingHistory trackingID).handlingEvents ++
          [ { trackingID := trackingID
              activity := { type := eventType, location := loc, voyageNumber := voyage }
              registrationTime := now
              completionTime := completionTime } ] ∧
    (∀ other : TrackingID, other ≠ trackingID →
      (World.handlingService.RegisterHandlingEvent now completionTime trackingID voyage
        loc eventType ww).2.events.QueryHandlingHistory other
        = ww.events.QueryHandlingHistory other) ∧
    (World.handlingService.RegisterHandlingEvent now completionTime trackingID voyage
        loc eventType ww).2.handled
      = ww.handled ++
          [ { trackingID := trackingID
              activity := { type := eventType, location := loc, voyageNumber := voyage }
              registrationTime := now
              completionTime := completionTime } ] ∧
    (World.handlingService.RegisterHandlingEvent now completionTime trackingID voyage
        loc eventType ww).2.cargos = ww.cargos := by
  have key : ∀ {τ : Type} (t : Handling.service τ) (v : τ),
      (t.RegisterHandlingEvent now completionTime trackingID voyage loc eventType v).1 = none →
      ∃ v1, t.handlingEventFactory.CreateHandlingEvent now completionTime trackingID voyage loc
          eventType v
          = (Except.ok
              { trackingID := trackingID
                activity := { type := eventType, location := loc, voyageNumber := voyage }
                registrationTime := now
                completionTime := completionTime }, v1) ∧
        (t.RegisterHandlingEvent now completionTime trackingID voyage loc eventType v).2
          = t.handlingEventHandler.CargoWasHandled
              { trackingID := trackingID
                activity := { type := eventType, location := loc, voyageNumber := voyage }
                registrationTime := now
                completionTime := completionTime }
              (t.handlingEventRepository.Store
                { trackingID := trackingID
                  activity := { type := eventType, location := loc, voyageNumber := voyage }
                  registrationTime := now
                  completionTime := completionTime } v1) := by
    intro τ t v hv
    unfold Handling.service.RegisterHandlingEvent at hv ⊢
    split at hv
    · simp at hv
    · rcases hc : t.handlingEventFactory.CreateHandlingEvent now completionTime trackingID
          voyage loc eventType v with ⟨r, v1⟩
      rw [hc] at hv
      cases r with
      | error err => simp at hv
      | ok e =>
        have he := createHandlingEvent_ok t.handlingEventFactory now completionTime trackingID
          voyage loc eventType v v1 e hc
        subst he
        refine ⟨v1, rfl, ?_⟩
        rename_i hvalid
        rw [if_neg hvalid]
  obtain ⟨ww1, hcreate, hstate⟩ := key World.handlingService ww hok2
  have hww1 : ww1 = ww := by
    have hst := inmem_createHandlingEvent_state ww now completionTime trackingID voyage loc
      eventType
    have hc2 : (World.handlingService.handlingEventFactory.CreateHandlingEvent now
        completionTime trackingID voyage loc eventType ww).2 = ww1 := by rw [hcreate]
    exact hc2.symm.trans hst
  subst hww1
  refine ⟨key s w hok, ?_, ?_, ?_, ?_⟩
  · rw [hstate]
    simp [World.handlingService, World.stubEventHandler, World.handlingEventRepository,
      handlingEventRepository.Store, handlingEventRepository.QueryHandlingHistory]
  · intro other hother
    rw [hstate]
    simp [World.handlingService, World.stubEventHandler, World.handlingEventRepository,
      handlingEventRepository.Store, handlingEventRepository.QueryHandlingHistory, hother]
  · rw [hstate]
    simp [World.handlingService, World.stubEventHandler, World.handlingEventRepository]
  · rw [hstate]
    simp [World.handlingService, World.stubEventHandler, World.handlingEventRepository]

theorem c15_registration_success_witness :
    (MockWorld.handlingService.RegisterHandlingEvent 5 completed2015 "ABC123" "V100" "CNHKG"
        HandlingEventType.Load MockWorld.new).1 = none ∧
    (World.handlingService.RegisterHandlingEvent 5 completed2015 "ABC123" "V100" "CNHKG"
        HandlingEventType.Load worldRouted).1 = none ∧
    ((World.handlingService.RegisterHandlingEvent 5 completed2015 "ABC123" "V100" "CNHKG"
        HandlingEventType.Load worldRouted).2.events.QueryHandlingHistory
          "ABC123").handlingEvents
      = [ { trackingID := "ABC123"
            activity := { type := HandlingEventType.Load, location := "CNHKG",
                          voyageNumber := "V100" }
            registrationTime := 5
            completionTime := completed2015 } ] ∧
    (World.handlingService.RegisterHandlingEvent 5 completed2015 "ABC123" "V100" "CNHKG"
        HandlingEventType.Load worldRouted).2.handled
      = [ { trackingID := "ABC123"
            activity := { type := HandlingEventType.Load, location := "CNHKG",
                          voyageNumber := "V100" }
            registrationTime := 5
            completionTime := completed2015 } ] := by
  have h1 : (MockWorld.handlingService.RegisterHandlingEvent 5 completed2015 "ABC123" "V100"
      "CNHKG" HandlingEventType.Load MockWorld.new).1 = none := by decide
  have h2 : (World.handlingService.RegisterHandlingEvent 5 completed2015 "ABC123" "V100"
      "CNHKG" HandlingEventType.Load worldRouted).1 = none := by decide
  have h := c15_registration_success MockWorld.handlingService 5 completed2015 "ABC123" "V100"
    "CNHKG" HandlingEventType.Load MockWorld.new worldRouted h1 h2
  exact ⟨h1, h2, h.2.1, h.2.2.2.1⟩

/-! ## Booking -/

theorem cargoRepository_find_store (r : cargoRepository) (c : Cargo) :
    (r.Store c).Find c.trackingID = Except.ok c := by
  simp [cargoRepository.Store, cargoRepository.Find, List.lookup]

/-- C16: for every non-empty origin, non-empty destination and non-zero
arrival deadline, `BookNewCargo` over the in-memory cargo repository returns
the generated tracking id and no error, and the repository then finds under
that id a cargo whose tracking id is that id, whose origin is the given origin
and whose route specification has the given origin, destination and arrival
deadline. -/
theorem c16_book_new_cargo (NextTrackingID : World → TrackingID × World) (now : Time)
    (origin destination : UNLocode) (arrivalDeadline : Time) (w : World)
    (horigin : origin ≠ "") (hdestination : destination ≠ "") (hdeadline : arrivalDeadline ≠ 0) :
    ∃ (id : TrackingID) (c : Cargo),
      (World.bookingService.BookNewCargo NextTrackingID now origin destination arrivalDeadline
        w).1 = (id, none) ∧
      id = (NextTrackingID w).1 ∧
      (World.bookingService.cargos.Find id
        (World.bookingService.BookNewCargo NextTrackingID now origin destination
          arrivalDeadline w).2).1 = Except.ok c ∧
      c.trackingID = id ∧
      c.origin = origin ∧
      c.routeSpecification
        = { origin := origin, destination := destination,
            arrivalDeadline := arrivalDeadline } := by
  have hvalid : ¬ (origin = "" ∨ destination = "" ∨ arrivalDeadline = 0) := by
    rintro (h | h | h)
    · exact horigin h
    · exact hdestination h
    · exact hdeadline h
  refine ⟨(NextTrackingID w).1,
    NewCargo now (NextTrackingID w).1
      { origin := origin, destination := destination, arrivalDeadline := arrivalDeadline },
    ?_, rfl, ?_, rfl, rfl, rfl⟩
  · simp only [Booking.service.BookNewCargo, if_neg hvalid, World.bookingService,
      World.cargoRepository]
    rfl
  · simp only [Booking.service.BookNewCargo, if_neg hvalid, World.bookingService,
      World.cargoRepository]
    exact cargoRepository_find_store _ _

theorem c16_book_new_cargo_witness :
    ("SESTO" : UNLocode) ≠ "" ∧ ("AUMEL" : UNLocode) ≠ "" ∧ completed2015 ≠ 0 ∧
    ∃ (id : TrackingID) (c : Cargo),
      (World.bookingService.BookNewCargo sampleNextTrackingID 5 "SESTO" "AUMEL" completed2015
        World.new).1 = (id, none) ∧
      id = (sampleNextTrackingID World.new).1 ∧
      (World.bookingService.cargos.Find id
        (World.bookingService.BookNewCargo sampleNextTrackingID 5 "SESTO" "AUMEL"
          completed2015 World.new).2).1 = Except.ok c ∧
      c.trackingID = id ∧
      c.origin = "SESTO" ∧
      c.routeSpecification
        = { origin := "SESTO", destination := "AUMEL", arrivalDeadline := completed2015 } :=
  ⟨by decide, by decide, by decide,
    c16_book_new_cargo sampleNextTrackingID 5 "SESTO" "AUMEL" completed2015 World.new
      (by decide) (by decide) (by decide)⟩

/-- C17: `AssignCargoToRoute` returns `ErrInvalidArgument` when the tracking id
is empty or the itinerary has no legs, leaving the state untouched (no lookup:
an unknown id with an empty itinerary gives `ErrInvalidArgument`); with a
non-empty id and itinerary and a failing lookup it returns the repository's
lookup error and leaves the state the lookup left; over the in-memory
repository that is `ErrUnknownCargo` and the unchanged world. -/
theorem c17_assign_cargo_to_route_errors {σ : Type} (s : Booking.service σ) (now : Time)
    (id : TrackingID) (itinerary : Itinerary) (w : σ) (ww : World) :
    ((id = "" ∨ itinerary.legs = []) →
      s.AssignCargoToRoute now id itinerary w = (some Error.BookingErrInvalidArgument, w)) ∧
    (∀ (err : Error) (w1 : σ), id ≠ "" → itinerary.legs ≠ [] →
      s.cargos.Find id w = (Except.error err, w1) →
      s.AssignCargoToRoute now id itinerary w = (some err, w1)) ∧
    (id ≠ "" → itinerary.legs ≠ [] → ww.cargos.cargos.lookup id = none →
      World.bookingService.AssignCargoToRoute now id itinerary ww
        = (some Error.ErrUnknownCargo, ww)) ∧
    World.bookingService.AssignCargoToRoute now "no_such_id" { legs := [] } worldBooked
      = (some Error.BookingErrInvalidArgument, worldBooked) ∧
    World.bookingService.AssignCargoToRoute now "no_such_id" hongkongToStockholm worldBooked
      = (some Error.ErrUnknownCargo, worldBooked) := by
  have hgen : ∀ {τ : Type} (t : Booking.service τ) (i : TrackingID) (it : Itinerary) (v : τ)
      (err : Error) (v1 : τ), i ≠ "" → it.legs ≠ [] →
      t.cargos.Find i v = (Except.error err, v1) →
      t.AssignCargoToRoute now i it v = (some err, v1) := by
    intro τ t i it v err v1 hid hlegs hfind
    have hvalid : ¬ (i = "" ∨ it.legs.length = 0) := by
      rintro (h | h)
      · exact hid h
      · exact hlegs (List.length_eq_zero.mp h)
    simp only [Booking.service.AssignCargoToRoute, if_neg hvalid, hfind]
  have hinmem : ∀ (i : TrackingID) (it : Itinerary) (v : World), i ≠ "" → it.legs ≠ [] →
      v.cargos.cargos.lookup i = none →
      World.bookingService.AssignCargoToRoute now i it v = (some Error.ErrUnknownCargo, v) := by
    intro i it v hid hlegs hlookup
    apply hgen World.bookingService i it v Error.ErrUnknownCargo v hid hlegs
    simp [World.bookingService, World.cargoRepository, cargoRepository.Find, hlookup]
  refine ⟨?_, ?_, ?_, ?_, ?_⟩
  · intro hbad
    have hbad2 : id = "" ∨ itinerary.legs.length = 0 := by
      rcases hbad with h | h
      · exact Or.inl h
      · exact Or.inr (by rw [h]; rfl)
    simp only [Booking.service.AssignCargoToRoute, if_pos hbad2]
  · intro err w1 hid hlegs hfind
    exact hgen s id itinerary w err w1 hid hlegs hfind
  · exact hinmem id itinerary ww
  · simp [Booking.service.AssignCargoToRoute]
  · exact hinmem "no_such_id" hongkongToStockholm worldBooked (by decide) (by decide)
      (by decide)

/-- C18: `ChangeDestination` returns `ErrInvalidArgument` if the id or the
destination is empty, leaving the state untouched; otherwise the cargo
lookup's error if the cargo is not found, whatever the destination is;
otherwise the location lookup's error if the destination is not found.  Over
the in-memory repositories these are `ErrUnknownCargo` and
`ErrUnknownLocation`, and in every one of these cases the world, with every
stored cargo and its route specification, is unchanged. -/
theorem c18_change_destination_errors {σ : Type} (s : Booking.service σ) (now : Time)
    (id : TrackingID) (destination : UNLocode) (w : σ) (ww : World) :
    ((id = "" ∨ destination = "") →
      s.ChangeDestination now id destination w = (some Error.BookingErrInvalidArgument, w)) ∧
    (∀ (err : Error) (w1 : σ), id ≠ "" → destination ≠ "" →
      s.cargos.Find id w = (Except.error err, w1) →
      s.ChangeDestination now id destination w = (some err, w1)) ∧
    (∀ (c : Cargo) (err : Error) (w1 w2 : σ), id ≠ "" → destination ≠ "" →
      s.cargos.Find id w = (Except.ok c, w1) →
      s.locations.Find destination w1 = (Except.error err, w2) →
      s.ChangeDestination now id destination w = (some err, w2)) ∧
    (id ≠ "" → destination ≠ "" → ww.cargos.cargos.lookup id = none →
      World.bookingService.ChangeDestination now id destination ww
        = (some Error.ErrUnknownCargo, ww)) ∧
    (id ≠ "" → destination ≠ "" → ww.cargos.cargos.lookup id ≠ none →
      ww.locations.locations.lookup destination = none →
      World.bookingService.ChangeDestination now id destination ww
        = (some Error.ErrUnknownLocation, ww)) ∧
    World.bookingService.ChangeDestination now "no_such_id" "no_such_unlocode" worldBooked
      = (some Error.ErrUnknownCargo, worldBooked) ∧
    World.bookingService.ChangeDestination now "ABC123" "no_such_unlocode" worldBooked
      = (some Error.ErrUnknownLocation, worldBooked) ∧
    World.bookingService.ChangeDestination now "ABC123" "" worldBooked
      = (some Error.BookingErrInvalidArgument, worldBooked) := by
  have hcargo : ∀ {τ : Type} (t : Booking.service τ) (i : TrackingID) (d : UNLocode) (v : τ)
      (err : Error) (v1 : τ), i ≠ "" → d ≠ "" →
      t.cargos.Find i v = (Except.error err, v1) →
      t.ChangeDestination now i d v = (some err, v1) := by
    intro τ t i d v err v1 hid hd hfind
    have hvalid : ¬ (i = "" ∨ d = "") := by
      rintro (h | h)
      · exact hid h
      · exact hd h
    simp only [Booking.service.ChangeDestination, if_neg hvalid, hfind]
  have hloc : ∀ {τ : Type} (t : Booking.service τ) (i : TrackingID) (d : UNLocode) (v : τ)
      (c : Cargo) (err : Error) (v1 v2 : τ), i ≠ "" → d ≠ "" →
      t.cargos.Find i v = (Except.ok c, v1) →
      t.locations.Find d v1 = (Except.error err, v2) →
      t.ChangeDestination now i d v = (some err, v2) := by
    intro τ t i d v c err v1 v2 hid hd hfind hl
    have hvalid : ¬ (i = "" ∨ d = "") := by
      rintro (h | h)
      · exact hid h
      · exact hd h
    simp only [Booking.service.ChangeDestination, if_neg hvalid, hfind, hl]
  have hinmem1 : ∀ (i : TrackingID) (d : UNLocode) (v : World), i ≠ "" → d ≠ "" →
      v.cargos.cargos.lookup i = none →
      World.bookingService.ChangeDestination now i d v = (some Error.ErrUnknownCargo, v) := by
    intro i d v hid hd hlookup
    apply hcargo World.bookingService i d v Error.ErrUnknownCargo v hid hd
    simp [World.bookingService, World.cargoRepository, cargoRepository.Find, hlookup]
  have hinmem2 : ∀ (i : TrackingID) (d : UNLocode) (v : World), i ≠ "" → d ≠ "" →
      v.cargos.cargos.lookup i ≠ none → v.locations.locations.lookup d = none →
      World.bookingService.ChangeDestination now i d v
        = (some Error.ErrUnknownLocation, v) := by
    intro i d v hid hd hlookup hl
    cases hc : v.cargos.cargos.lookup i with
    | none => exact absurd hc hlookup
    | some c =>
      apply hloc World.bookingService i d v c Error.ErrUnknownLocation v v hid hd
      · simp [World.bookingService, World.cargoRepository, cargoRepository.Find, hc]
      · simp [World.bookingService, World.locationRepository, locationRepository.Find, hl]
  refine ⟨?_, ?_, ?_, ?_, ?_, ?_, ?_, ?_⟩
  · intro hbad
    simp only [Booking.service.ChangeDestination, if_pos hbad]
  · intro err w1 hid hd hfind
    exact hcargo s id destination w err w1 hid hd hfind
  · intro c err w1 w2 hid hd hfind hl
    exact hloc s id destination w c err w1 w2 hid hd hfind hl
  · exact hinmem1 id destination ww
  · exact hinmem2 id destination ww
  · exact hinmem1 "no_such_id" "no_such_unlocode" worldBooked (by decide) (by decide)
      (by decide)
  · exact hinmem2 "ABC123" "no_such_unlocode" worldBooked (by decide) (by decide)
      (by decide) (by decide)
  · simp [Booking.service.ChangeDestination]

/-- C19: when `ChangeDestination` succeeds over the in-memory repositories, a
cargo and a location were found, and the cargo then stored under the cargo's
tracking id has a route specification with the found location's UN/LOCODE as
destination, the previous arrival deadline and the cargo's origin field as
origin; its tracking id, origin and itinerary are those of the found cargo.
For the rerouted cargo of the scenario (origin field CNHKG, route
specification from JNTKO) the new route specification starts at CNHKG. -/
theorem c19_change_destination_success (now : Time) (id : TrackingID) (destination : UNLocode)
    (ww : World)
    (hok : (World.bookingService.ChangeDestination now id destination ww).1 = none) :
    (∃ (c : Cargo) (l : Location) (stored : Cargo),
      ww.cargos.Find id = Except.ok c ∧
      ww.locations.Find destination = Except.ok l ∧
      (World.bookingService.ChangeDestination now id destination ww).2.cargos.Find c.trackingID
        = Except.ok stored ∧
      stored.routeSpecification
        = { origin := c.origin, destination := l.unLocode,
            arrivalDeadline := c.routeSpecification.arrivalDeadline } ∧
      stored.trackingID = c.trackingID ∧
      stored.origin = c.origin ∧
      stored.itinerary = c.itinerary) ∧
    cargoRespecified.origin = "CNHKG" ∧
    cargoRespecified.routeSpecification.origin = "JNTKO" ∧
    (World.bookingService.ChangeDestination now "ABC123" "AUMEL" worldRespecified).1 = none ∧
    ((World.bookingService.ChangeDestination now "ABC123" "AUMEL"
        worldRespecified).2.cargos.Find "ABC123").map (fun c => c.routeSpecification)
      = Except.ok
          { origin := "CNHKG", destination := "AUMEL",
            arrivalDeadline := toDateMarch2009 18 } := by
  have hfindR : worldRespecified.cargos.Find "ABC123" = Except.ok cargoRespecified := rfl
  have hlocR : worldRespecified.locations.Find "AUMEL" = Except.ok Melbourne := rfl
  have hrun : World.bookingService.ChangeDestination now "ABC123" "AUMEL" worldRespecified
      = (none, { worldRespecified with
          cargos := worldRespecified.cargos.Store
            (cargoRespecified.SpecifyNewRoute now
              { origin := cargoRespecified.origin, destination := Melbourne.unLocode,
                arrivalDeadline := cargoRespecified.routeSpecification.arrivalDeadline }) }) := by
    simp [Booking.service.ChangeDestination, World.bookingService, World.cargoRepository,
      World.locationRepository, hfindR, hlocR]
  refine ⟨?_, by decide, by decide, ?_, ?_⟩
  · unfold Booking.service.ChangeDestination at hok ⊢
    split at hok
    · simp at hok
    · rename_i hvalid
      rw [if_neg hvalid]
      simp only [World.bookingService, World.cargoRepository, World.locationRepository] at hok ⊢
      rcases hc : ww.cargos.Find id with err | c
      · rw [hc] at hok
        simp at hok
      · rcases hl : ww.locations.Find destination with err | l
        · rw [hc] at hok
          simp only [hl] at hok
          simp at hok
        · refine ⟨c, l, c.SpecifyNewRoute now
            { origin := c.origin, destination := l.unLocode,
              arrivalDeadline := c.routeSpecification.arrivalDeadline }, rfl, rfl, ?_,
            rfl, rfl, rfl, rfl⟩
          simp only [hl]
          exact cargoRepository_find_store ww.cargos
            (c.SpecifyNewRoute now
              { origin := c.origin, destination := l.unLocode,
                arrivalDeadline := c.routeSpecification.arrivalDeadline })
  · rw [hrun]
  · rw [hrun]
    show Except.map _ ((worldRespecified.cargos.Store _).Find "ABC123") = _
    have hid : (cargoRespecified.SpecifyNewRoute now
        { origin := cargoRespecified.origin, destination := Melbourne.unLocode,
          arrivalDeadline := cargoRespecified.routeSpecification.arrivalDeadline }).trackingID
        = "ABC123" := rfl
    rw [← hid, cargoRepository_find_store]
    rfl

theorem c19_change_destination_success_witness :
    (World.bookingService.ChangeDestination 5 "ABC123" "AUMEL" worldBooked).1 = none ∧
    ∃ (c : Cargo) (l : Location) (stored : Cargo),
      worldBooked.cargos.Find "ABC123" = Except.ok c ∧
      worldBooked.locations.Find "AUMEL" = Except.ok l ∧
      (World.bookingService.ChangeDestination 5 "ABC123" "AUMEL" worldBooked).2.cargos.Find
          c.trackingID = Except.ok stored ∧
      stored.routeSpecification
        = { origin := c.origin, destination := l.unLocode,
            arrivalDeadline := c.routeSpecification.arrivalDeadline } ∧
      stored.trackingID = c.trackingID ∧
      stored.origin = c.origin ∧
      stored.itinerary = c.itinerary :=
  ⟨by decide,
    (c19_change_destination_success 5 "ABC123" "AUMEL" worldBooked (by decide)).1⟩

/-! ## Inspection -/

theorem inspectCargo_inmem (now : Time) (id : TrackingID) (iw : InspectionWorld) (c : Cargo)
    (hfind : iw.cargos.Find id = Except.ok c) :
    InspectionWorld.service.InspectCargo now id iw
      = { cargos :=
            iw.cargos.Store (c.deriveDeliveryProgress now (iw.events.QueryHandlingHistory id))
          events := iw.events
          handled :=
            iw.handled ++
              (if (c.deriveDeliveryProgress now
                    (iw.events.QueryHandlingHistory id)).delivery.isMisdirected = true
                then [c.deriveDeliveryProgress now (iw.events.QueryHandlingHistory id)]
                else []) ++
              (if (c.deriveDeliveryProgress now
                    (iw.events.QueryHandlingHistory id)).delivery.isUnloadedAtDestination = true
                then [c.deriveDeliveryProgress now (iw.events.QueryHandlingHistory id)]
                else []) } := by
  simp only [Inspection.service.InspectCargo, InspectionWorld.service, hfind]
  by_cases hm : (c.deriveDeliveryProgress now
      (iw.events.QueryHandlingHistory id)).delivery.isMisdirected = true <;>
    by_cases ha : (c.deriveDeliveryProgress now
      (iw.events.QueryHandlingHistory id)).delivery.isUnloadedAtDestination = true <;>
    simp [hm, ha]

theorem inspectCargo_inmem_unknown (now : Time) (id : TrackingID) (iw : InspectionWorld)
    (hlookup : iw.cargos.cargos.lookup id = none) :
    InspectionWorld.service.InspectCargo now id iw = iw := by
  simp [Inspection.service.InspectCargo, InspectionWorld.service, cargoRepository.Find, hlookup]

/-- C21: when the cargo is found, `InspectCargo` queries the history of the
tracking id, re-derives the delivery from it, calls `CargoWasMisdirected` once
if the derived `IsMisdirected` flag is true and not otherwise, then
`CargoHasArrived` once if the derived `IsUnloadedAtDestination` flag is true
and not otherwise, and finally stores the cargo.  Over the in-memory
repositories with the recording handler the number of notifications added is
the number of true flags; the two inspection tests each add one. -/
theorem c21_inspect_cargo {σ : Type} (s : Inspection.service σ) (now : Time)
    (id : TrackingID) (w w1 w2 : σ) (c : Cargo) (h : HandlingHistory)
    (hfind : s.cargoRepository.Find id w = (Except.ok c, w1))
    (hquery : s.handlingEventRepository.QueryHandlingHistory id w1 = (h, w2)) :
    (c.deriveDeliveryProgress now h).delivery
      = Delivery.derive now c.routeSpecification c.itinerary h ∧
    s.InspectCargo now id w
      = (s.cargoRepository.Store (c.deriveDeliveryProgress now h)
          (if (c.deriveDeliveryProgress now h).delivery.isUnloadedAtDestination = true then
            s.cargoEventHandler.CargoHasArrived (c.deriveDeliveryProgress now h)
              (if (c.deriveDeliveryProgress now h).delivery.isMisdirected = true then
                s.cargoEventHandler.CargoWasMisdirected (c.deriveDeliveryProgress now h) w2
              else w2)
          else
            (if (c.deriveDeliveryProgress now h).delivery.isMisdirected = true then
              s.cargoEventHandler.CargoWasMisdirected (c.deriveDeliveryProgress now h) w2
            else w2))).2 ∧
    (∀ (iw : InspectionWorld) (ci : Cargo), iw.cargos.Find id = Except.ok ci →
      (InspectionWorld.service.InspectCargo now id iw).handled.length
        = iw.handled.length +
          (if (ci.deriveDeliveryProgress now
                (iw.events.QueryHandlingHistory id)).delivery.isMisdirected = true
            then 1 else 0) +
          (if (ci.deriveDeliveryProgress now
                (iw.events.QueryHandlingHistory id)).delivery.isUnloadedAtDestination = true
            then 1 else 0) ∧
      (InspectionWorld.service.InspectCargo now id iw).cargos.Find ci.trackingID
        = Except.ok (ci.deriveDeliveryProgress now (iw.events.QueryHandlingHistory id)) ∧
      (InspectionWorld.service.InspectCargo now id iw).events = iw.events) ∧
    (InspectionWorld.service.InspectCargo now "ABC123" worldMisdirectedTest).handled.length
      = 1 ∧
    (InspectionWorld.service.InspectCargo now "ABC123" worldUnloadedTest).handled.length
      = 1 := by
  have hM : worldMisdirectedTest.cargos.Find "ABC123" = Except.ok cargoInspected := rfl
  have hU : worldUnloadedTest.cargos.Find "ABC123" = Except.ok cargoInspected := rfl
  refine ⟨rfl, ?_, ?_, ?_, ?_⟩
  · simp only [Inspection.service.InspectCargo, hfind, hquery]
  · intro iw ci hci
    rw [inspectCargo_inmem now id iw ci hci]
    refine ⟨?_, ?_, rfl⟩
    · simp only [List.length_append]
      by_cases hm : (ci.deriveDeliveryProgress now
          (iw.events.QueryHandlingHistory id)).delivery.isMisdirected = true <;>
        by_cases ha : (ci.deriveDeliveryProgress now
          (iw.events.QueryHandlingHistory id)).delivery.isUnloadedAtDestination = true <;>
        simp [hm, ha]
    · exact cargoRepository_find_store iw.cargos
        (ci.deriveDeliveryProgress now (iw.events.QueryHandlingHistory id))
  · rw [inspectCargo_inmem now "ABC123" worldMisdirectedTest cargoInspected hM]
    have h1 : (cargoInspected.deriveDeliveryProgress now
        (worldMisdirectedTest.events.QueryHandlingHistory "ABC123")).delivery.isMisdirected
        = true := by
      show calculateMisdirectedStatus
        (worldMisdirectedTest.events.QueryHandlingHistory "ABC123").mostRecentlyCompletedEvent
        cargoInspected.itinerary = true
      decide
    have h2 : (cargoInspected.deriveDeliveryProgress now
        (worldMisdirectedTest.events.QueryHandlingHistory
          "ABC123")).delivery.isUnloadedAtDestination = false := by
      show calculateUnloadedAtDestination
        (worldMisdirectedTest.events.QueryHandlingHistory "ABC123").mostRecentlyCompletedEvent
        cargoInspected.routeSpecification = false
      decide
    simp only [h1, h2]
    simp [worldMisdirectedTest]
  · rw [inspectCargo_inmem now "ABC123" worldUnloadedTest cargoInspected hU]
    have h1 : (cargoInspected.deriveDeliveryProgress now
        (worldUnloadedTest.events.QueryHandlingHistory "ABC123")).delivery.isMisdirected
        = false := by
      show calculateMisdirectedStatus
        (worldUnloadedTest.events.QueryHandlingHistory "ABC123").mostRecentlyCompletedEvent
        cargoInspected.itinerary = false
      decide
    have h2 : (cargoInspected.deriveDeliveryProgress now
        (worldUnloadedTest.events.QueryHandlingHistory
          "ABC123")).delivery.isUnloadedAtDestination = true := by
      show calculateUnloadedAtDestination
        (worldUnloadedTest.events.QueryHandlingHistory "ABC123").mostRecentlyCompletedEvent
        cargoInspected.routeSpecification = true
      decide
    simp only [h1, h2]
    simp [worldUnloadedTest]

theorem c21_inspect_cargo_witness :
    InspectionWorld.service.cargoRepository.Find "ABC123" worldMisdirectedTest
      = (Except.ok cargoInspected, worldMisdirectedTest) ∧
    InspectionWorld.service.handlingEventRepository.QueryHandlingHistory "ABC123"
        worldMisdirectedTest
      = (worldMisdirectedTest.events.QueryHandlingHistory "ABC123", worldMisdirectedTest) ∧
    (InspectionWorld.service.InspectCargo 0 "ABC123" worldMisdirectedTest).handled.length
      = 1 :=
  ⟨rfl, rfl,
    (c21_inspect_cargo InspectionWorld.service 0 "ABC123" worldMisdirectedTest
      worldMisdirectedTest worldMisdirectedTest cargoInspected
      (worldMisdirectedTest.events.QueryHandlingHistory "ABC123") rfl rfl).2.2.2.1⟩

/-- C22: when the cargo repository does not find the tracking id,
`InspectCargo` leaves the state the failed lookup left: no history is queried,
nothing is derived, no notification is sent and nothing is stored.  Over the
in-memory repositories the world is unchanged. -/
theorem c22_inspect_unknown_cargo {σ : Type} (s : Inspection.service σ) (now : Time)
    (id : TrackingID) (w w1 : σ) (err : Error)
    (hfind : s.cargoRepository.Find id w = (Except.error err, w1)) :
    s.InspectCargo now id w = w1 ∧
    (∀ iw : InspectionWorld, iw.cargos.cargos.lookup id = none →
      InspectionWorld.service.InspectCargo now id iw = iw) ∧
    InspectionWorld.service.InspectCargo now "no_such_id"
        (InspectionWorld.service.InspectCargo now "ABC123" worldMisdirectedTest)
      = InspectionWorld.service.InspectCargo now "ABC123" worldMisdirectedTest := by
  refine ⟨?_, ?_, ?_⟩
  · simp only [Inspection.service.InspectCargo, hfind]
  · intro iw hl
    exact inspectCargo_inmem_unknown now id iw hl
  · apply inspectCargo_inmem_unknown
    rw [inspectCargo_inmem now "ABC123" worldMisdirectedTest cargoInspected rfl]
    rfl

theorem c22_inspect_unknown_cargo_witness :
    InspectionWorld.service.cargoRepository.Find "no_such_id" worldMisdirectedTest
      = (Except.error Error.ErrUnknownCargo, worldMisdirectedTest) ∧
    InspectionWorld.service.InspectCargo 0 "no_such_id" worldMisdirectedTest
      = worldMisdirectedTest :=
  ⟨rfl,
    (c22_inspect_unknown_cargo InspectionWorld.service 0 "no_such_id" worldMisdirectedTest
      worldMisdirectedTest Error.ErrUnknownCargo rfl).1⟩

/-- C23 as stated fails: after the first inspection of
`TestInspectMisdirectedCargo` the stored cargo is misdirected and one
notification was sent; a second inspection derives the flag as true again and
sends a second notification. -/
theorem c23_counterexample :
    worldMisdirectedInspected.handled.length = 1 ∧
    worldMisdirectedInspected.cargos.Find "ABC123" = Except.ok cargoInspectedMisdirected ∧
    cargoInspectedMisdirected.delivery.isMisdirected = true ∧
    (cargoInspectedMisdirected.deriveDeliveryProgress 0
      (worldMisdirectedInspected.events.QueryHandlingHistory "ABC123")).delivery.isMisdirected
      = true ∧
    (InspectionWorld.service.InspectCargo 0 "ABC123" worldMisdirectedInspected).handled.length
      = 2 := by
  refine ⟨by decide, rfl, by decide, by decide, by decide⟩

/-- C23 (amended): the misdirected and arrived notifications are sent whenever
the respective flag is true after re-derivation, whatever the flags of the
stored snapshot were: the stored snapshot does not enter the derivation, and a
cargo that was already misdirected (or already unloaded at its destination)
and still is gets the notification again. -/
theorem c23_notified_whenever_flag_true (now : Time) (id : TrackingID) (iw : InspectionWorld)
    (c : Cargo) (hfind : iw.cargos.Find id = Except.ok c) :
    (InspectionWorld.service.InspectCargo now id iw).handled
      = iw.handled ++
          (if (c.deriveDeliveryProgress now
                (iw.events.QueryHandlingHistory id)).delivery.isMisdirected = true
            then [c.deriveDeliveryProgress now (iw.events.QueryHandlingHistory id)]
            else []) ++
          (if (c.deriveDeliveryProgress now
                (iw.events.QueryHandlingHistory id)).delivery.isUnloadedAtDestination = true
            then [c.deriveDeliveryProgress now (iw.events.QueryHandlingHistory id)]
            else []) ∧
    (∀ d : Delivery,
      ({ c with delivery := d } : Cargo).deriveDeliveryProgress now
          (iw.events.QueryHandlingHistory id)
        = c.deriveDeliveryProgress now (iw.events.QueryHandlingHistory id)) ∧
    (c.delivery.isMisdirected = true →
      (c.deriveDeliveryProgress now
        (iw.events.QueryHandlingHistory id)).delivery.isMisdirected = true →
      ∃ rest, (InspectionWorld.service.InspectCargo now id iw).handled
        = iw.handled ++
            c.deriveDeliveryProgress now (iw.events.QueryHandlingHistory id) :: rest) ∧
    (c.delivery.isUnloadedAtDestination = true →
      (c.deriveDeliveryProgress now
        (iw.events.QueryHandlingHistory id)).delivery.isUnloadedAtDestination = true →
      ∃ before, (InspectionWorld.service.InspectCargo now id iw).handled
        = iw.handled ++ before ++
            [c.deriveDeliveryProgress now (iw.events.QueryHandlingHistory id)]) := by
  rw [inspectCargo_inmem now id iw c hfind]
  refine ⟨rfl, fun _ => rfl, ?_, ?_⟩
  · intro _ hm
    simp only [hm, if_true]
    refine ⟨if (c.deriveDeliveryProgress now
        (iw.events.QueryHandlingHistory id)).delivery.isUnloadedAtDestination = true
      then [c.deriveDeliveryProgress now (iw.events.QueryHandlingHistory id)] else [], ?_⟩
    simp
  · intro _ ha
    simp only [ha, if_true]
    exact ⟨if (c.deriveDeliveryProgress now
        (iw.events.QueryHandlingHistory id)).delivery.isMisdirected = true
      then [c.deriveDeliveryProgress now (iw.events.QueryHandlingHistory id)] else [], rfl⟩

theorem c23_notified_whenever_flag_true_witness :
    worldMisdirectedInspected.cargos.Find "ABC123" = Except.ok cargoInspectedMisdirected ∧
    (InspectionWorld.service.InspectCargo 0 "ABC123" worldMisdirectedInspected).handled
      = worldMisdirectedInspected.handled ++
          (if (cargoInspectedMisdirected.deriveDeliveryProgress 0
                (worldMisdirectedInspected.events.QueryHandlingHistory
                  "ABC123")).delivery.isMisdirected = true
            then [cargoInspectedMisdirected.deriveDeliveryProgress 0
                    (worldMisdirectedInspected.events.QueryHandlingHistory "ABC123")]
            else []) ++
          (if (cargoInspectedMisdirected.deriveDeliveryProgress 0
                (worldMisdirectedInspected.events.QueryHandlingHistory
                  "ABC123")).delivery.isUnloadedAtDestination = true
            then [cargoInspectedMisdirected.deriveDeliveryProgress 0
                    (worldMisdirectedInspected.events.QueryHandlingHistory "ABC123")]
            else []) :=
  ⟨rfl,
    (c23_notified_whenever_flag_true 0 "ABC123" worldMisdirectedInspected
      cargoInspectedMisdirected rfl).1⟩

/-! ## In-memory repositories -/

theorem lookup_filter_ne (l : List (TrackingID × Cargo)) (id k : TrackingID) (h : id ≠ k) :
    (l.filter (fun p => p.1 != k)).lookup id = l.lookup id := by
  induction l with
  | nil => rfl
  | cons p t ih =>
    obtain ⟨pk, pc⟩ := p
    by_cases hk : pk = k
    · subst hk
      have hne : (id == pk) = false := by simpa using h
      simp [List.filter, List.lookup, hne, ih]
    · have hkeep : (pk != k) = true := by simpa using hk
      simp only [List.filter, hkeep, List.lookup]
      cases hid : (id == pk) with
      | true => rfl
      | false => exact ih

theorem cargoRepository_find_store_other (r : cargoRepository) (c : Cargo) (id : TrackingID)
    (h : id ≠ c.trackingID) : (r.Store c).Find id = r.Find id := by
  have hne : (id == c.trackingID) = false := by simpa using h
  simp only [cargoRepository.Store, cargoRepository.Find, List.lookup, hne]
  rw [lookup_filter_ne r.cargos id c.trackingID h]

theorem cargoRepository_find_foldl_other (post : List Cargo) (r : cargoRepository)
    (id : TrackingID) (h : ∀ y ∈ post, y.trackingID ≠ id) :
    (post.foldl cargoRepository.Store r).Find id = r.Find id := by
  induction post generalizing r with
  | nil => rfl
  | cons y t ih =>
    have hy : id ≠ y.trackingID := fun e => h y (List.mem_cons_self y t) e.symm
    rw [List.foldl_cons, ih (r.Store y) (fun z hz => h z (List.mem_cons_of_mem y hz)),
      cargoRepository_find_store_other r y id hy]

theorem lookup_of_mem_nodup (l : List (TrackingID × Cargo)) (p : TrackingID × Cargo)
    (hn : (l.map Prod.fst).Nodup) (hp : p ∈ l) : l.lookup p.1 = some p.2 := by
  induction l with
  | nil => exact absurd hp (List.not_mem_nil p)
  | cons q t ih =>
    obtain ⟨qk, qc⟩ := q
    rw [List.map_cons, List.nodup_cons] at hn
    rcases List.mem_cons.mp hp with h | h
    · subst h
      simp [List.lookup]
    · have hne : p.1 ≠ qk := by
        intro e
        have hin : p.1 ∈ t.map Prod.fst := List.mem_map_of_mem Prod.fst h
        rw [e] at hin
        exact hn.1 hin
      have hb : (p.1 == qk) = false := by simpa using hne
      simp only [List.lookup, hb]
      exact ih hn.2 h

theorem cargoRepository_invariant (stores : List Cargo) :
    ((stores.foldl cargoRepository.Store NewCargoRepository).cargos.map Prod.fst).Nodup ∧
    (∀ p ∈ (stores.foldl cargoRepository.Store NewCargoRepository).cargos,
      p.1 = p.2.trackingID) ∧
    (∀ k, k ∈ (stores.foldl cargoRepository.Store NewCargoRepository).cargos.map Prod.fst ↔
      ∃ y ∈ stores, y.trackingID = k) := by
  induction stores using List.reverseRecOn with
  | nil => simp [NewCargoRepository]
  | append_singleton init c ih =>
    obtain ⟨hn, hk, hm⟩ := ih
    rw [List.foldl_append, List.foldl_cons, List.foldl_nil]
    generalize init.foldl cargoRepository.Store NewCargoRepository = r at hn hk hm
    have hsub : ((r.cargos.filter (fun p => p.1 != c.trackingID)).map Prod.fst).Nodup :=
      List.Nodup.sublist ((List.filter_sublist r.cargos).map Prod.fst) hn
    refine ⟨?_, ?_, ?_⟩
    · simp only [cargoRepository.Store, List.map_cons, List.nodup_cons]
      refine ⟨?_, hsub⟩
      intro hmem
      obtain ⟨p, hp, hpk⟩ := List.mem_map.mp hmem
      have := (List.mem_filter.mp hp).2
      simp [hpk] at this
    · intro p hp
      simp only [cargoRepository.Store, List.mem_cons] at hp
      rcases hp with h | h
      · rw [h]
      · exact hk p (List.mem_filter.mp h).1
    · intro k
      simp only [cargoRepository.Store, List.map_cons, List.mem_cons, List.mem_append,
        List.mem_singleton]
      constructor
      · rintro (h | h)
        · exact ⟨c, Or.inr (Or.inl rfl), h.symm⟩
        · obtain ⟨p, hp, hpk⟩ := List.mem_map.mp h
          have hin : k ∈ r.cargos.map Prod.fst :=
            hpk ▸ List.mem_map_of_mem Prod.fst (List.mem_filter.mp hp).1
          obtain ⟨y, hy, hyk⟩ := (hm k).mp hin
          exact ⟨y, Or.inl hy, hyk⟩
      · rintro ⟨y, hy | hy, hyk⟩
        · by_cases hkc : k = c.trackingID
          · exact Or.inl hkc
          · right
            obtain ⟨p, hp, hpk⟩ := List.mem_map.mp ((hm k).mpr ⟨y, hy, hyk⟩)
            refine List.mem_map.mpr ⟨p, List.mem_filter.mpr ⟨hp, ?_⟩, hpk⟩
            simpa [hpk] using hkc
        · rcases hy with hy | hy
          · subst hy
            exact Or.inl hyk.symm
          · exact absurd hy (List.not_mem_nil y)

/-- C24: after any sequence of `Store` calls on a new in-memory cargo
repository, `Find(id)` returns the cargo most recently stored under that
tracking id, or `ErrUnknownCargo` if none was stored; a further `Store` does
not change what `Find` returns for any other tracking id; `FindAll` has
exactly one entry per distinct tracking id stored, each the cargo `Find`
returns for its id. -/
theorem c24_cargo_repository (stores : List Cargo) (c : Cargo) (id : TrackingID) :
    (∀ (pre : List Cargo) (x : Cargo) (post : List Cargo), stores = pre ++ x :: post →
      x.trackingID = id → (∀ y ∈ post, y.trackingID ≠ id) →
      (stores.foldl cargoRepository.Store NewCargoRepository).Find id = Except.ok x) ∧
    ((∀ y ∈ stores, y.trackingID ≠ id) →
      (stores.foldl cargoRepository.Store NewCargoRepository).Find id
        = Except.error Error.ErrUnknownCargo) ∧
    (id ≠ c.trackingID →
      ((stores.foldl cargoRepository.Store NewCargoRepository).Store c).Find id
        = (stores.foldl cargoRepository.Store NewCargoRepository).Find id) ∧
    ((stores.foldl cargoRepository.Store NewCargoRepository).FindAll.map
      (fun x => x.trackingID)).Nodup ∧
    (∀ k, k ∈ (stores.foldl cargoRepository.Store NewCargoRepository).FindAll.map
        (fun x => x.trackingID) ↔ ∃ y ∈ stores, y.trackingID = k) ∧
    (∀ y ∈ (stores.foldl cargoRepository.Store NewCargoRepository).FindAll,
      (stores.foldl cargoRepository.Store NewCargoRepository).Find y.trackingID
        = Except.ok y) ∧
    (stores.foldl cargoRepository.Store NewCargoRepository).FindAll.length
      = ((stores.map (fun x => x.trackingID)).dedup).length := by
  obtain ⟨hn, hk, hm⟩ := cargoRepository_invariant stores
  have hkeys : (stores.foldl cargoRepository.Store NewCargoRepository).FindAll.map
      (fun x => x.trackingID)
      = (stores.foldl cargoRepository.Store NewCargoRepository).cargos.map Prod.fst := by
    simp only [cargoRepository.FindAll, List.map_map]
    apply List.map_congr_left
    intro p hp
    exact (hk p hp).symm
  refine ⟨?_, ?_, ?_, ?_, ?_, ?_, ?_⟩
  · intro pre x post hsplit hx hpost
    rw [hsplit, List.foldl_append, List.foldl_cons,
      cargoRepository_find_foldl_other post _ id hpost, ← hx]
    exact cargoRepository_find_store _ x
  · intro hall
    rw [cargoRepository_find_foldl_other stores NewCargoRepository id hall]
    rfl
  · intro hne
    exact cargoRepository_find_store_other _ c id hne
  · rw [hkeys]
    exact hn
  · intro k
    rw [hkeys]
    exact hm k
  · intro y hy
    simp only [cargoRepository.FindAll] at hy
    obtain ⟨p, hp, hpy⟩ := List.mem_map.mp hy
    have hl := lookup_of_mem_nodup _ p hn hp
    rw [← hpy, ← hk p hp]
    simp only [cargoRepository.Find, hl]
  · have hperm : List.Perm
        ((stores.foldl cargoRepository.Store NewCargoRepository).FindAll.map
          (fun x => x.trackingID))
        ((stores.map (fun x => x.trackingID)).dedup) := by
      rw [hkeys]
      refine (List.perm_ext_iff_of_nodup hn (List.nodup_dedup _)).mpr ?_
      intro k
      rw [hm k, List.mem_dedup, List.mem_map]
    have hlen := hperm.length_eq
    rw [List.length_map] at hlen
    exact hlen

theorem handlingEventRepository_events_foldl (stores : List HandlingEvent)
    (r : handlingEventRepository) (id : TrackingID) :
    (stores.foldl handlingEventRepository.Store r).events id
      = r.events id ++ stores.filter (fun x => decide (x.trackingID = id)) := by
  induction stores generalizing r with
  | nil => simp
  | cons e t ih =>
    rw [List.foldl_cons, ih (r.Store e)]
    by_cases h : e.trackingID = id
    · subst h
      simp [handlingEventRepository.Store, List.filter]
    · have h2 : ¬ id = e.trackingID := fun x => h x.symm
      simp [handlingEventRepository.Store, List.filter, h, h2]

/-- C25: in the in-memory handling event repository, after `Store(e)` the
history of the tracking id of `e` is the previous history with `e` appended at
the end, and the history of every other tracking id is unchanged; after any
further stores the previous history is still the beginning of the history; a
new repository, and any tracking id without a stored event, has the empty
history. -/
theorem c25_history_appended (r : handlingEventRepository) (e : HandlingEvent)
    (id : TrackingID) (stores : List HandlingEvent) :
    ((r.Store e).QueryHandlingHistory e.trackingID).handlingEvents
      = (r.QueryHandlingHistory e.trackingID).handlingEvents ++ [e] ∧
    (id ≠ e.trackingID → (r.Store e).QueryHandlingHistory id = r.QueryHandlingHistory id) ∧
    (r.QueryHandlingHistory id).handlingEvents <+:
      ((stores.foldl handlingEventRepository.Store r).QueryHandlingHistory id).handlingEvents ∧
    (NewHandlingEventRepository.QueryHandlingHistory id).handlingEvents = [] ∧
    ((∀ x ∈ stores, x.trackingID ≠ id) →
      ((stores.foldl handlingEventRepository.Store
        NewHandlingEventRepository).QueryHandlingHistory id).handlingEvents = []) := by
  refine ⟨?_, ?_, ?_, rfl, ?_⟩
  · simp [handlingEventRepository.QueryHandlingHistory, handlingEventRepository.Store]
  · intro hne
    simp [handlingEventRepository.QueryHandlingHistory, handlingEventRepository.Store, hne]
  · simp only [handlingEventRepository.QueryHandlingHistory,
      handlingEventRepository_events_foldl]
    exact List.prefix_append _ _
  · intro hall
    simp only [handlingEventRepository.QueryHandlingHistory,
      handlingEventRepository_events_foldl, NewHandlingEventRepository, List.nil_append]
    rw [List.filter_eq_nil_iff]
    intro x hx
    simpa using hall x hx

/-- C26 as stated fails: a Load completed on day 5 is stored first, a Receive
completed on day 1 is stored after it (a retroactive registration); the
history returned has the Load first, so it is not ordered by completion
time. -/
theorem c26_counterexample :
    (retroactiveRepository.QueryHandlingHistory "ABC123").handlingEvents
      = [ sampleEvent HandlingEventType.Load "V100" "CNHKG" 5,
          sampleEvent HandlingEventType.Receive "" "CNHKG" 1 ] ∧
    (sampleEvent HandlingEventType.Receive "" "CNHKG" 1).completionTime
      < (sampleEvent HandlingEventType.Load "V100" "CNHKG" 5).completionTime ∧
    ¬ List.Sorted completedNoLaterThan
      (retroactiveRepository.QueryHandlingHistory "ABC123").handlingEvents := by
  have h : (retroactiveRepository.QueryHandlingHistory "ABC123").handlingEvents
      = [ sampleEvent HandlingEventType.Load "V100" "CNHKG" 5,
          sampleEvent HandlingEventType.Receive "" "CNHKG" 1 ] := by decide
  refine ⟨h, by decide, ?_⟩
  rw [h]
  intro hs
  have hle := List.rel_of_sorted_cons hs _ (List.mem_singleton_self _)
  revert hle
  decide

/-- C26 (amended): for every sequence of stored handling events, the history
returned by `QueryHandlingHistory` for a tracking id holds the events of that
tracking id in the order in which they were stored; it is ordered by
non-decreasing completion time exactly when those events were stored in that
order, in particular when all events were. -/
theorem c26_history_in_store_order (stores : List HandlingEvent) (id : TrackingID) :
    ((stores.foldl handlingEventRepository.Store
        NewHandlingEventRepository).QueryHandlingHistory id).handlingEvents
      = stores.filter (fun x => decide (x.trackingID = id)) ∧
    (List.Sorted completedNoLaterThan
        ((stores.foldl handlingEventRepository.Store
          NewHandlingEventRepository).QueryHandlingHistory id).handlingEvents ↔
      List.Sorted completedNoLaterThan (stores.filter (fun x => decide (x.trackingID = id)))) ∧
    (List.Sorted completedNoLaterThan stores →
      List.Sorted completedNoLaterThan
        ((stores.foldl handlingEventRepository.Store
          NewHandlingEventRepository).QueryHandlingHistory id).handlingEvents) := by
  have h : ((stores.foldl handlingEventRepository.Store
        NewHandlingEventRepository).QueryHandlingHistory id).handlingEvents
      = stores.filter (fun x => decide (x.trackingID = id)) := by
    simp only [handlingEventRepository.QueryHandlingHistory,
      handlingEventRepository_events_foldl, NewHandlingEventRepository, List.nil_append]
  rw [h]
  refine ⟨rfl, Iff.rfl, ?_⟩
  intro hs
  exact List.Pairwise.sublist (List.filter_sublist stores) hs

/-! ## Tracking read model -/

/-- C27: the status text is "Not received" for NotReceived, "In port "
followed by the last known location for InPort, "Onboard voyage " followed by
the current voyage for OnboardCarrier, "Claimed" for Claimed and "Unknown" for
the remaining status; it is the same for two cargos with the same delivery,
and it is the text the read model carries.  For a cargo with no handling
events (as booked, after routing, after a derivation from the empty history)
it is "Not received", which equals the string form of NotReceived for every
string form that renders NotReceived as the tests require. -/
theorem c27_status_text (now : Time) (id : TrackingID) (rs : RouteSpecification)
    (it : Itinerary) (c c2 : Cargo) (typeString : HandlingEventType → String)
    (toLower : String → String) (her : handlingEventRepository) (clock : Nat → String) :
    (c.delivery.transportStatus = TransportStatus.NotReceived →
      Tracking.assembleStatusText c = "Not received") ∧
    (c.delivery.transportStatus = TransportStatus.InPort →
      Tracking.assembleStatusText c = "In port " ++ c.delivery.lastKnownLocation) ∧
    (c.delivery.transportStatus = TransportStatus.OnboardCarrier →
      Tracking.assembleStatusText c = "Onboard voyage " ++ c.delivery.currentVoyage) ∧
    (c.delivery.transportStatus = TransportStatus.Claimed →
      Tracking.assembleStatusText c = "Claimed") ∧
    (c.delivery.transportStatus = TransportStatus.Unknown →
      Tracking.assembleStatusText c = "Unknown") ∧
    (c.delivery = c2.delivery →
      Tracking.assembleStatusText c = Tracking.assembleStatusText c2) ∧
    (Tracking.assemble typeString toLower c her clock).statusText
      = Tracking.assembleStatusText c ∧
    Tracking.assembleStatusText (NewCargo now id rs) = "Not received" ∧
    Tracking.assembleStatusText ((NewCargo now id rs).AssignToRoute now it) = "Not received" ∧
    Tracking.assembleStatusText (c.deriveDeliveryProgress now { handlingEvents := [] })
      = "Not received" ∧
    (∀ statusString : TransportStatus → String,
      statusString TransportStatus.NotReceived = "Not received" →
      Tracking.assembleStatusText (NewCargo now id rs)
        = statusString TransportStatus.NotReceived) ∧
    (Tracking.Track typeString toLower
        (NewCargoRepository.Store
          (NewCargo now "FTL456" { origin := "AUMEL", destination := "SESTO",
                                   arrivalDeadline := 0 }))
        NewHandlingEventRepository clock "FTL456").map (fun t => t.statusText)
      = Except.ok "Not received" := by
  have hnew : Tracking.assembleStatusText (NewCargo now id rs) = "Not received" := rfl
  refine ⟨?_, ?_, ?_, ?_, ?_, ?_, rfl, hnew, rfl, rfl, ?_, ?_⟩
  · intro h
    simp [Tracking.assembleStatusText, h]
  · intro h
    simp [Tracking.assembleStatusText, h]
  · intro h
    simp [Tracking.assembleStatusText, h]
  · intro h
    simp [Tracking.assembleStatusText, h]
  · intro h
    simp [Tracking.assembleStatusText, h]
  · intro h
    simp [Tracking.assembleStatusText, h]
  · intro statusString hs
    rw [hnew, hs]
  · have hfind : (NewCargoRepository.Store
        (NewCargo now "FTL456" { origin := "AUMEL", destination := "SESTO",
                                 arrivalDeadline := 0 })).Find "FTL456"
        = Except.ok (NewCargo now "FTL456" { origin := "AUMEL", destination := "SESTO",
                                             arrivalDeadline := 0 }) :=
      cargoRepository_find_store NewCargoRepository
        (NewCargo now "FTL456" { origin := "AUMEL", destination := "SESTO",
                                 arrivalDeadline := 0 })
    have hid : ¬ (("FTL456" : String) = "") := by decide
    simp only [Tracking.Track, if_neg hid, hfind]
    rfl

theorem lead_ne_no_activities (rest : String) :
    "Next expected activity is to" ++ rest
      ≠ "There are currently no expected activities for this cargo." := by
  intro h
  have h1 := congrArg String.data h
  rw [String.data_append] at h1
  have h2 : ("Next expected activity is to" : String).data
      = 'N' :: ("ext expected activity is to" : String).data := rfl
  have h3 : ("There are currently no expected activities for this cargo." : String).data
      = 'T' :: ("here are currently no expected activities for this cargo." : String).data :=
    rfl
  rw [h2, h3, List.cons_append] at h1
  exact absurd (List.cons.inj h1).1 (by decide)

/-- C28: the next-expected-activity text is "There are currently no expected
activities for this cargo." exactly when the next expected activity has type
NotHandled; for Load and Unload it is made of the lower-cased type name, the
voyage number and the location, and for Receive, Customs and Claim of the
lower-cased type name and the location only: the voyage number of the
activity does not enter it. -/
theorem c28_next_expected_activity_text (typeString : HandlingEventType → String)
    (toLower : String → String) (c : Cargo) (voyage : VoyageNumber)
    (her : handlingEventRepository) (clock : Nat → String) :
    (Tracking.nextExpectedActivity typeString toLower c
        = "There are currently no expected activities for this cargo." ↔
      c.delivery.nextExpectedActivity.type = HandlingEventType.NotHandled) ∧
    (c.delivery.nextExpectedActivity.type = HandlingEventType.Load →
      Tracking.nextExpectedActivity typeString toLower c
        = "Next expected activity is to" ++ " " ++ toLower (typeString HandlingEventType.Load)
            ++ " cargo onto voyage " ++ c.delivery.nextExpectedActivity.voyageNumber ++ " in "
            ++ c.delivery.nextExpectedActivity.location ++ ".") ∧
    (c.delivery.nextExpectedActivity.type = HandlingEventType.Unload →
      Tracking.nextExpectedActivity typeString toLower c
        = "Next expected activity is to" ++ " "
            ++ toLower (typeString HandlingEventType.Unload)
            ++ " cargo off of voyage " ++ c.delivery.nextExpectedActivity.voyageNumber
            ++ " in " ++ c.delivery.nextExpectedActivity.location ++ ".") ∧
    ((c.delivery.nextExpectedActivity.type = HandlingEventType.Receive ∨
        c.delivery.nextExpectedActivity.type = HandlingEventType.Customs ∨
        c.delivery.nextExpectedActivity.type = HandlingEventType.Claim) →
      Tracking.nextExpectedActivity typeString toLower c
        = "Next expected activity is to" ++ " "
            ++ toLower (typeString c.delivery.nextExpectedActivity.type)
            ++ " cargo in " ++ c.delivery.nextExpectedActivity.location ++ "." ∧
      Tracking.nextExpectedActivity typeString toLower
          { c with delivery :=
              { c.delivery with nextExpectedActivity :=
                  { c.delivery.nextExpectedActivity with voyageNumber := voyage } } }
        = Tracking.nextExpectedActivity typeString toLower c) ∧
    (Tracking.assemble typeString toLower c her clock).nextExpectedActivity
      = Tracking.nextExpectedActivity typeString toLower c ∧
    Tracking.nextExpectedActivity typeString toLower
        (NewCargo 0 "TEST" { origin := "SESTO", destination := "FIHEL", arrivalDeadline := 0 })
      = "There are currently no expected activities for this cargo." := by
  refine ⟨?_, ?_, ?_, ?_, rfl, rfl⟩
  · constructor
    · intro h
      by_contra hne
      revert h
      cases ht : c.delivery.nextExpectedActivity.type <;>
        simp only [Tracking.nextExpectedActivity, ht, String.append_assoc]
      · exact absurd ht hne
      all_goals exact lead_ne_no_activities _
    · intro h
      simp [Tracking.nextExpectedActivity, h]
  · intro h
    simp [Tracking.nextExpectedActivity, h]
  · intro h
    simp [Tracking.nextExpectedActivity, h]
  · intro h
    rcases h with h | h | h <;> simp [Tracking.nextExpectedActivity, h]

/-! ## Booking: argument check and read model -/

/-- C29: `BookNewCargo` returns the empty tracking id and `ErrInvalidArgument`
when the origin is empty, the destination is empty or the arrival deadline is
the zero time, leaving the state untouched; over the in-memory repository it
does so exactly then.  With valid arguments the cargo handed to `Store` is the
new cargo for the route specification made of them, so a cargo booked with
success has a non-empty origin and destination and a set arrival deadline.
The location repository is not consulted: replacing it changes nothing, and
codes no location has are booked. -/
theorem c29_book_new_cargo_invalid {σ : Type} (s : Booking.service σ)
    (NextTrackingID : σ → TrackingID × σ) (NextTrackingID2 : World → TrackingID × World)
    (now : Time) (origin destination : UNLocode) (arrivalDeadline : Time) (w : σ) (ww : World)
    (locations : LocationRepository σ) :
    ((origin = "" ∨ destination = "" ∨ arrivalDeadline = 0) →
      s.BookNewCargo NextTrackingID now origin destination arrivalDeadline w
        = (("", some Error.BookingErrInvalidArgument), w)) ∧
    ((World.bookingService.BookNewCargo NextTrackingID2 now origin destination arrivalDeadline
        ww).1 = ("", some Error.BookingErrInvalidArgument) ↔
      (origin = "" ∨ destination = "" ∨ arrivalDeadline = 0)) ∧
    (¬ (origin = "" ∨ destination = "" ∨ arrivalDeadline = 0) →
      (s.BookNewCargo NextTrackingID now origin destination arrivalDeadline w).2
        = (s.cargos.Store
            (NewCargo now (NextTrackingID w).1
              { origin := origin, destination := destination,
                arrivalDeadline := arrivalDeadline }) (NextTrackingID w).2).2) ∧
    ((World.bookingService.BookNewCargo NextTrackingID2 now origin destination arrivalDeadline
        ww).1.2 = none →
      ∃ c, (World.bookingService.BookNewCargo NextTrackingID2 now origin destination
          arrivalDeadline ww).2.cargos.Find
            (World.bookingService.BookNewCargo NextTrackingID2 now origin destination
              arrivalDeadline ww).1.1 = Except.ok c ∧
        c.origin ≠ "" ∧ c.routeSpecification.origin ≠ "" ∧
        c.routeSpecification.destination ≠ "" ∧
        c.routeSpecification.arrivalDeadline ≠ 0) ∧
    ({ s with locations := locations } : Booking.service σ).BookNewCargo NextTrackingID now
        origin destination arrivalDeadline w
      = s.BookNewCargo NextTrackingID now origin destination arrivalDeadline w ∧
    (World.bookingService.BookNewCargo sampleNextTrackingID now "ZZZZZ" "YYYYY" completed2015
        World.new).1 = ("ABC123", none) ∧
    World.new.locations.Find "ZZZZZ" = Except.error Error.ErrUnknownLocation := by
  have hc : completed2015 ≠ 0 := by decide
  have hvalidrun : ¬ (origin = "" ∨ destination = "" ∨ arrivalDeadline = 0) →
      World.bookingService.BookNewCargo NextTrackingID2 now origin destination arrivalDeadline ww
        = (((NextTrackingID2 ww).1, none),
            { (NextTrackingID2 ww).2 with
              cargos := (NextTrackingID2 ww).2.cargos.Store
                (NewCargo now (NextTrackingID2 ww).1
                  { origin := origin, destination := destination,
                    arrivalDeadline := arrivalDeadline }) }) := by
    intro hv
    simp only [Booking.service.BookNewCargo, if_neg hv, World.bookingService,
      World.cargoRepository]
    rfl
  refine ⟨?_, ?_, ?_, ?_, rfl, ?_, rfl⟩
  · intro hbad
    simp only [Booking.service.BookNewCargo, if_pos hbad]
  · constructor
    · intro h
      by_contra hv
      rw [hvalidrun hv] at h
      simp at h
    · intro hbad
      simp only [Booking.service.BookNewCargo, if_pos hbad]
  · intro hv
    simp only [Booking.service.BookNewCargo, if_neg hv]
    rcases hst : s.cargos.Store
        (NewCargo now (NextTrackingID w).1
          { origin := origin, destination := destination,
            arrivalDeadline := arrivalDeadline }) (NextTrackingID w).2 with ⟨r, w2⟩
    cases r <;> rfl
  · intro hok
    by_cases hv : origin = "" ∨ destination = "" ∨ arrivalDeadline = 0
    · simp [Booking.service.BookNewCargo, if_pos hv] at hok
    · rw [hvalidrun hv]
      refine ⟨NewCargo now (NextTrackingID2 ww).1
        { origin := origin, destination := destination,
          arrivalDeadline := arrivalDeadline }, ?_, ?_, ?_, ?_, ?_⟩
      · exact cargoRepository_find_store _
          (NewCargo now (NextTrackingID2 ww).1
            { origin := origin, destination := destination,
              arrivalDeadline := arrivalDeadline })
      · exact fun h => hv (Or.inl h)
      · exact fun h => hv (Or.inl h)
      · exact fun h => hv (Or.inr (Or.inl h))
      · exact fun h => hv (Or.inr (Or.inr h))
  · have hv : ¬ (("ZZZZZ" : UNLocode) = "" ∨ ("YYYYY" : UNLocode) = "" ∨ completed2015 = 0) := by
      decide
    simp only [Booking.service.BookNewCargo, if_neg hv, World.bookingService,
      World.cargoRepository]
    rfl

/-- C30: in the booking read model `Routed` is true exactly when the itinerary
has at least one leg and `Misrouted` is true exactly when the delivery's
routing status is Misrouted; legs, tracking id, origin, destination and
arrival deadline are copied.  A cargo whose non-empty itinerary does not
satisfy its route specification, its delivery being the one derived by any
operation of the aggregate, is reported with `Routed` and `Misrouted` both
true. -/
theorem c30_booking_read_model {σ : Type} (c : Cargo) (her : HandlingEventRepository σ)
    (now : Time) (rs : RouteSpecification) (it : Itinerary) (h : HandlingHistory) :
    ((Booking.assemble c her).routed = true ↔ c.itinerary.legs ≠ []) ∧
    ((Booking.assemble c her).misrouted = true ↔
      c.delivery.routingStatus = RoutingStatus.Misrouted) ∧
    (Booking.assemble c her).legs = c.itinerary.legs ∧
    (Booking.assemble c her).trackingID = c.trackingID ∧
    (Booking.assemble c her).origin = c.origin ∧
    (Booking.assemble c her).destination = c.routeSpecification.destination ∧
    (Booking.assemble c her).arrivalDeadline = c.routeSpecification.arrivalDeadline ∧
    (it.legs ≠ [] → it.satisfies c.routeSpecification = false →
      (Booking.assemble (c.AssignToRoute now it) her).routed = true ∧
      (Booking.assemble (c.AssignToRoute now it) her).misrouted = true) ∧
    (c.itinerary.legs ≠ [] → c.itinerary.satisfies rs = false →
      (Booking.assemble (c.SpecifyNewRoute now rs) her).routed = true ∧
      (Booking.assemble (c.SpecifyNewRoute now rs) her).misrouted = true) ∧
    (c.itinerary.legs ≠ [] → c.itinerary.satisfies c.routeSpecification = false →
      (Booking.assemble (c.deriveDeliveryProgress now h) her).routed = true ∧
      (Booking.assemble (c.deriveDeliveryProgress now h) her).misrouted = true) ∧
    (Booking.assemble cargoMisrouted her).routed = true ∧
    (Booking.assemble cargoMisrouted her).misrouted = true ∧
    cargoMisrouted.itinerary.satisfies cargoMisrouted.routeSpecification = false := by
  have hmis : ∀ (i : Itinerary) (r : RouteSpecification), i.legs ≠ [] →
      i.satisfies r = false → calculateRoutingStatus i r = RoutingStatus.Misrouted := by
    intro i r hne hs
    cases hl : i.legs with
    | nil => exact absurd hl hne
    | cons a t => simp [calculateRoutingStatus, Itinerary.isEmpty, hl, hs]
  have hrouted : ∀ i : Itinerary, i.legs ≠ [] → (!i.isEmpty) = true := by
    intro i hne
    cases hl : i.legs with
    | nil => exact absurd hl hne
    | cons a t => simp [Itinerary.isEmpty, hl]
  refine ⟨?_, ?_, rfl, rfl, rfl, rfl, rfl, ?_, ?_, ?_, ?_, ?_, ?_⟩
  · cases hl : c.itinerary.legs <;> simp [Booking.assemble, Itinerary.isEmpty, hl]
  · simp [Booking.assemble]
  · intro hne hs
    refine ⟨hrouted it hne, ?_⟩
    show decide (calculateRoutingStatus it c.routeSpecification = RoutingStatus.Misrouted)
      = true
    simp [hmis it c.routeSpecification hne hs]
  · intro hne hs
    refine ⟨hrouted c.itinerary hne, ?_⟩
    show decide (calculateRoutingStatus c.itinerary rs = RoutingStatus.Misrouted) = true
    simp [hmis c.itinerary rs hne hs]
  · intro hne hs
    refine ⟨hrouted c.itinerary hne, ?_⟩
    show decide (calculateRoutingStatus c.itinerary c.routeSpecification
      = RoutingStatus.Misrouted) = true
    simp [hmis c.itinerary c.routeSpecification hne hs]
  · show (!cargoMisrouted.itinerary.isEmpty) = true
    decide
  · show decide (cargoMisrouted.delivery.routingStatus = RoutingStatus.Misrouted) = true
    decide
  · decide

end Goddd
